import Mathlib

/-!
Verification of the VisaMate IRCC questionnaire-wizard core.

This file is a shallow embedding, in Lean 4, of the Python code of the
wizard engine of the repository:

* `src/lambdas/eligibility_check.py` — the study-permit eligibility checker;
* `src/services/form_service.py` — the IRCC form templates, the auto-fill
  engine, form validation, and TRV (temporary resident visa) gating;
* `src/lambdas/form_fill.py` — the Lambda form-generation path and its
  answers/OCR merge;
* `src/lambdas/ocr_handler.py` — the OCR-to-questionnaire field mapper;
* `src/api/v1/wizard.py` — the wizard session answer store, the static
  question tree, and the wizard-tree endpoint.

Python dictionaries whose values are arbitrary JSON-shaped data are embedded
as association lists over an inductive value type `Val`; Python truthiness,
`dict.get`, `dict.update` and `str()` are embedded explicitly.  Code that can
raise (attribute errors on values of the wrong shape) is embedded in
`Except PyErr`.  Floats appearing in the wizard's data are exact decimal
quantities (GIC amounts, IELTS band scores); they are embedded as rationals,
and `str()` on them is embedded by exact decimal rendering, which agrees with
CPython on such decimally-representable values.
-/

namespace VisaMate

/-- JSON-shaped Python value, as stored in answer maps, OCR-result maps and
generated form-field maps. -/
inductive Val where
  | vNone : Val
  | vBool : Bool → Val
  | vInt : Int → Val
  | vFloat : Rat → Val
  | vStr : String → Val
  | vList : List Val → Val
  | vDict : List (String × Val) → Val
  deriving Inhabited

/-- A Python dictionary with string keys: an association list in insertion
order (Python dicts preserve insertion order). -/
abbrev PyDict := List (String × Val)

/-- Python truthiness (`bool(v)`): `None`, `False`, zero, the empty string,
the empty list and the empty dict are falsy. -/
def pyTruthy : Val → Bool
  | .vNone => false
  | .vBool b => b
  | .vInt n => n != 0
  | .vFloat q => q != 0
  | .vStr s => s != ""
  | .vList l => !l.isEmpty
  | .vDict d => !d.isEmpty

/-- `d.get(k)`: the value of the first (and, for a real dict, only) entry
with key `k`. -/
def pyGet (d : PyDict) (k : String) : Option Val :=
  (d.find? (fun p => p.1 == k)).map (·.2)

/-- `d.get(k, default)`. -/
def pyGetD (d : PyDict) (k : String) (dflt : Val) : Val :=
  (pyGet d k).getD dflt

/-- `k in d` for a Python dict. -/
def pyHasKey (d : PyDict) (k : String) : Bool :=
  d.any (fun p => p.1 == k)

/-- Write key `k` to value `v` in dict `d`: overwrite in place if the key
exists (keeping its position), otherwise append — exactly the effect of a
single-key Python dict assignment (a dict holds each key at most once). -/
def pyUpsert : PyDict → String → Val → PyDict
  | [], k, v => [(k, v)]
  | p :: rest, k, v => if p.1 == k then (k, v) :: rest else p :: pyUpsert rest k v

/-- `d.update(u)` / `{**d, **u}`: fold the entries of `u` into `d`,
last write wins per key, new keys appended in `u`'s order. -/
def pyUpdate (d u : PyDict) : PyDict :=
  u.foldl (fun acc p => pyUpsert acc p.1 p.2) d

/-- `s.upper()` (character-wise, over the string's character list). -/
def pyUpperStr (s : String) : String :=
  ⟨s.data.map Char.toUpper⟩

/-- `s.lower()` (character-wise, over the string's character list). -/
def pyLowerStr (s : String) : String :=
  ⟨s.data.map Char.toLower⟩

/-- `s.strip()`: drop leading and trailing whitespace. -/
def pyStrip (s : String) : String :=
  ⟨((s.data.dropWhile Char.isWhitespace).reverse.dropWhile Char.isWhitespace).reverse⟩

/-- The decimal digits of the fraction `rem/den` (with `rem < den`), most
significant first, up to `fuel` digits (17 suffices for every
decimally-representable double). -/
def fracDigits (rem den : Nat) : Nat → String
  | 0 => ""
  | fuel + 1 =>
    if rem = 0 then ""
    else toString (rem * 10 / den) ++ fracDigits (rem * 10 % den) den fuel

/-- `str()` of a Python float, for floats that are exact decimal quantities:
CPython renders such values by their shortest decimal expansion, with a
trailing `.0` for integral floats.  Computed from the reduced
numerator/denominator of the embedded rational. -/
def floatRepr (q : Rat) : String :=
  let sgn := if q.num < 0 then "-" else ""
  let ip := q.num.natAbs / q.den
  let rem := q.num.natAbs % q.den
  sgn ++ toString ip ++ "." ++ (if rem = 0 then "0" else fracDigits rem q.den 17)

mutual

/-- Python `repr()` of a value (used by `str()` inside containers).  String
quoting uses the single-quote character, written `\x27`. -/
def pyRepr : Val → String
  | .vNone => "None"
  | .vBool b => cond b "True" "False"
  | .vInt n => toString n
  | .vFloat q => floatRepr q
  | .vStr s => "\x27" ++ s ++ "\x27"
  | .vList l => "[" ++ pyReprList l ++ "]"
  | .vDict d => "\x7b" ++ pyReprPairs d ++ "\x7d"

def pyReprList : List Val → String
  | [] => ""
  | [v] => pyRepr v
  | v :: rest => pyRepr v ++ ", " ++ pyReprList rest

def pyReprPairs : List (String × Val) → String
  | [] => ""
  | [(k, v)] => "\x27" ++ k ++ "\x27: " ++ pyRepr v
  | (k, v) :: rest => "\x27" ++ k ++ "\x27: " ++ pyRepr v ++ ", " ++ pyReprPairs rest

end

/-- Python `str()` of a value: identity on strings, decimal rendering of
numbers, `True`/`False`/`None` keywords, `repr`-style rendering inside
containers. -/
def pyStr : Val → String
  | .vStr s => s
  | v => pyRepr v

mutual

/-- `json.dumps` of a value (string escaping is not modelled; no key or value
in this system's data contains characters needing escapes). -/
def jsonDump : Val → String
  | .vNone => "null"
  | .vBool b => cond b "true" "false"
  | .vInt n => toString n
  | .vFloat q => floatRepr q
  | .vStr s => "\"" ++ s ++ "\""
  | .vList l => "[" ++ jsonDumpList l ++ "]"
  | .vDict d => "\x7b" ++ jsonDumpPairs d ++ "\x7d"

def jsonDumpList : List Val → String
  | [] => ""
  | [v] => jsonDump v
  | v :: rest => jsonDump v ++ ", " ++ jsonDumpList rest

def jsonDumpPairs : List (String × Val) → String
  | [] => ""
  | [(k, v)] => "\"" ++ k ++ "\": " ++ jsonDump v
  | (k, v) :: rest => "\"" ++ k ++ "\": " ++ jsonDump v ++ ", " ++ jsonDumpPairs rest

end

/-- The value of the last entry of `u` carrying key `k` (for a dict received
as JSON the key occurs at most once, so this is just `pyGet`). -/
def pyGetLast (u : PyDict) (k : String) : Option Val :=
  (u.reverse.find? (fun p => p.1 == k)).map (·.2)

/-! ## Answer store (`src/api/v1/wizard.py`, `submit_questionnaire_answers`)

The module-level `session_answers_store` is a dict from session id to that
session's answer dict; submission creates the per-session dict on first use
and merges the posted answers into it with `dict.update`. -/

/-- The in-memory per-session answer store (`session_answers_store`). -/
abbrev SessionStore := List (String × PyDict)

def storeGet : SessionStore → String → Option PyDict
  | [], _ => none
  | p :: rest, sid => if p.1 == sid then some p.2 else storeGet rest sid

def storeSet : SessionStore → String → PyDict → SessionStore
  | [], sid, d => [(sid, d)]
  | p :: rest, sid, d => if p.1 == sid then (sid, d) :: rest else p :: storeSet rest sid d

/-- Response of `POST /wizard/questionnaire/{session_id}`. -/
structure SubmitResponse where
  session_id : String
  answers_received : Nat
  total_answers_stored : Nat
  status : String
  deriving Repr, DecidableEq

/-- `submit_questionnaire_answers(session_id, answers)`: ensure the session
has a stored dict, merge the posted answers into it (`dict.update`, last
write wins), and report the counts. -/
def submit_questionnaire_answers (store : SessionStore) (session_id : String)
    (answers : PyDict) : SubmitResponse × SessionStore :=
  let existing := (storeGet store session_id).getD []
  let merged := pyUpdate existing answers
  let store' := storeSet store session_id merged
  ({ session_id := session_id
     answers_received := answers.length
     total_answers_stored := merged.length
     status := "success" }, store')

/-- Concrete answer map used to instantiate the C8 theorem. -/
def c8Answers : PyDict :=
  [("purpose_in_canada", .vStr "Study"), ("has_sds_gic", .vBool true)]

/-! ## Eligibility checker (`src/lambdas/eligibility_check.py`)

`check_study_permit_eligibility(answers, ocr_data)` evaluates seven fixed
requirement predicates by Python truthiness of `dict.get` lookups, counts the
satisfied ones, and derives a percentage score and a 6-of-7 eligibility
threshold. -/

/-- Truthiness of `d.get(k)` (absent key yields `None`, which is falsy). -/
def getTruthy (d : PyDict) (k : String) : Bool :=
  pyTruthy (pyGetD d k .vNone)

/-- `answers.get('accepted_to_dli') or ocr_data.get('institution_name')`. -/
def acceptance_letter_met (answers ocr_data : PyDict) : Bool :=
  getTruthy answers "accepted_to_dli" || getTruthy ocr_data "institution_name"

/-- `answers.get('has_gic') or answers.get('tuition_paid') or
ocr_data.get('gic_amount') or ocr_data.get('tuition_amount')`. -/
def financial_proof_met (answers ocr_data : PyDict) : Bool :=
  getTruthy answers "has_gic" || getTruthy answers "tuition_paid" ||
    getTruthy ocr_data "gic_amount" || getTruthy ocr_data "tuition_amount"

/-- `answers.get('has_language_test') or answers.get('all_scores_6_plus') or
ocr_data.get('ielts_scores')`. -/
def language_test_met (answers ocr_data : PyDict) : Bool :=
  getTruthy answers "has_language_test" || getTruthy answers "all_scores_6_plus" ||
    getTruthy ocr_data "ielts_scores"

/-- `answers.get('has_medical_exam')`. -/
def medical_exam_met (answers : PyDict) : Bool :=
  getTruthy answers "has_medical_exam"

/-- `not answers.get('criminal_background', True)`: the requirement is met
when the lookup (defaulting to `True` for a missing key) is falsy. -/
def clean_criminal_record_met (answers : PyDict) : Bool :=
  !(pyTruthy (pyGetD answers "criminal_background" (.vBool true)))

/-- `answers.get('passport_country_code') or ocr_data.get('passport_number')`. -/
def valid_passport_met (answers ocr_data : PyDict) : Bool :=
  getTruthy answers "passport_country_code" || getTruthy ocr_data "passport_number"

/-- `answers.get('has_provincial_attestation')`. -/
def provincial_attestation_met (answers : PyDict) : Bool :=
  getTruthy answers "has_provincial_attestation"

/-- The `requirements` dict of `check_study_permit_eligibility`, in its
insertion order, after all seven checks have run. -/
def requirementPairs (answers ocr_data : PyDict) : List (String × Bool) :=
  [("acceptance_letter", acceptance_letter_met answers ocr_data),
   ("financial_proof", financial_proof_met answers ocr_data),
   ("language_test", language_test_met answers ocr_data),
   ("medical_exam", medical_exam_met answers),
   ("clean_criminal_record", clean_criminal_record_met answers),
   ("valid_passport", valid_passport_met answers ocr_data),
   ("provincial_attestation", provincial_attestation_met answers)]

/-- `generate_recommendations(missing_requirements, answers)`: a fixed
remediation string per missing requirement, appended in a fixed order. -/
def generate_recommendations (missing : List String) : List String :=
  (if missing.contains "acceptance_letter" then
    ["Obtain an acceptance letter from a designated learning institution (DLI)"] else []) ++
  (if missing.contains "financial_proof" then
    ["Provide proof of financial support (GIC, tuition payment, bank statements)"] else []) ++
  (if missing.contains "language_test" then
    ["Take an approved language test (IELTS, CELPIP, TEF, or TCF)"] else []) ++
  (if missing.contains "medical_exam" then
    ["Complete an upfront medical exam with an IRCC panel physician"] else []) ++
  (if missing.contains "clean_criminal_record" then
    ["Obtain a police certificate from your country of residence"] else []) ++
  (if missing.contains "valid_passport" then
    ["Ensure you have a valid passport with at least 6 months validity"] else []) ++
  (if missing.contains "provincial_attestation" then
    ["Obtain a Provincial or Territorial Attestation Letter (PAL/TAL)"] else [])

/-- Result dict of `check_study_permit_eligibility`. -/
structure EligibilityResult where
  eligible : Bool
  score : Rat
  requirements_met : List String
  requirements_missing : List String
  recommendations : List String
  deriving Repr

/-- The `score` counter: one point per satisfied requirement, incremented in
the order the checks run. -/
def eligibilityMetCount (answers ocr_data : PyDict) : Nat :=
  (acceptance_letter_met answers ocr_data).toNat +
    (financial_proof_met answers ocr_data).toNat +
    (language_test_met answers ocr_data).toNat +
    (medical_exam_met answers).toNat +
    (clean_criminal_record_met answers).toNat +
    (valid_passport_met answers ocr_data).toNat +
    (provincial_attestation_met answers).toNat

/-- `check_study_permit_eligibility(answers, ocr_data)`: `max_score` is the
number of requirements (7); `eligibility_score = (score / max_score) * 100`;
`eligible = score >= 6`. -/
def check_study_permit_eligibility (answers ocr_data : PyDict) : EligibilityResult :=
  let score := eligibilityMetCount answers ocr_data
  let reqs := requirementPairs answers ocr_data
  let requirements_met := (reqs.filter (·.2)).map (·.1)
  let requirements_missing := (reqs.filter (fun p => !p.2)).map (·.1)
  { eligible := decide (6 ≤ score)
    score := (score : Rat) / 7 * 100
    requirements_met := requirements_met
    requirements_missing := requirements_missing
    recommendations := generate_recommendations requirements_missing }

/-- An answer map satisfying exactly six of the seven predicates (all but
`acceptance_letter`). -/
def c4SixOfSeven : PyDict :=
  [("has_gic", .vBool true), ("has_language_test", .vBool true),
   ("has_medical_exam", .vBool true), ("criminal_background", .vBool false),
   ("passport_country_code", .vStr "IND"), ("has_provincial_attestation", .vBool true)]

/-- An answer map satisfying exactly five of the seven predicates (all but
`acceptance_letter` and `medical_exam`). -/
def c4FiveOfSeven : PyDict :=
  [("has_gic", .vBool true), ("has_language_test", .vBool true),
   ("criminal_background", .vBool false),
   ("passport_country_code", .vStr "IND"), ("has_provincial_attestation", .vBool true)]

/-- An answer map whose `criminal_background` answer is JSON `null`: present,
Python-falsy, but not the boolean `false`. -/
def c5Answers : PyDict := [("criminal_background", .vNone)]

/-! ## Form auto-fill service (`src/services/form_service.py`)

Form templates are static; auto-fill computes a per-form mapping dict from
the (section-nested) questionnaire responses and writes `str(value)` into
each template field whose id is mapped to a truthy value; `_validate_form`
then derives completion percentage, validity and error messages.  Reading a
sub-map of the responses raises `AttributeError` when the stored value is not
a dict, so the filling functions live in `Except PyErr`.  (`help_text`,
`validation_rules` and the `generated_at` timestamp are carried by the
dataclasses but never consulted by the embedded code paths, so they are not
modelled.) -/

/-- A Python exception escaping an embedded function. -/
inductive PyErr where
  | attributeError : String → PyErr
  | typeError : String → PyErr
  deriving Repr, DecidableEq

/-- `v.get(k, dflt)` where `v` should be a dict: raises `AttributeError`
otherwise. -/
def pyValGetD (v : Val) (k : String) (dflt : Val) : Except PyErr Val :=
  match v with
  | .vDict d => .ok (pyGetD d k dflt)
  | _ => .error (.attributeError "get")

/-- Python `v == s` for a string literal `s`: true only for the equal
string. -/
def pyEqStr (v : Val) (s : String) : Bool :=
  match v with
  | .vStr t => t == s
  | _ => false

inductive FormType where
  | IMM1294 | IMM5645 | IMM5257
  deriving Repr, DecidableEq

structure FormField where
  field_id : String
  field_name : String
  field_type : String
  value : Option String := none
  is_required : Bool := true
  deriving Repr, DecidableEq

structure FormSection where
  section_id : String
  section_name : String
  fields : List FormField
  deriving Repr, DecidableEq

structure IRCCForm where
  form_type : FormType
  form_title : String
  form_version : String
  sections : List FormSection
  completion_percentage : Rat := 0
  is_valid : Bool := false
  validation_errors : List String := []
  deriving Repr, DecidableEq

/-- `_create_imm1294_template`. -/
def imm1294Template : IRCCForm :=
  { form_type := .IMM1294
    form_title := "Application for Study Permit Made Outside of Canada"
    form_version := "11-2023"
    sections :=
    [{ section_id := "personal_details", section_name := "Personal Details", fields :=
        [{ field_id := "family_name", field_name := "Family name (surname)", field_type := "text" },
         { field_id := "given_names", field_name := "Given name(s) (first name)", field_type := "text" },
         { field_id := "other_names", field_name := "Other names (if applicable)", field_type := "text", is_required := false },
         { field_id := "date_of_birth", field_name := "Date of birth", field_type := "date" },
         { field_id := "country_of_birth", field_name := "Country of birth", field_type := "select" },
         { field_id := "place_of_birth", field_name := "Place of birth (city/town)", field_type := "text" },
         { field_id := "sex", field_name := "Sex", field_type := "select" },
         { field_id := "marital_status", field_name := "Marital status", field_type := "select" }] },
     { section_id := "passport_travel_doc", section_name := "Passport or Travel Document", fields :=
        [{ field_id := "passport_number", field_name := "Passport/Document number", field_type := "text" },
         { field_id := "passport_country", field_name := "Country of issue", field_type := "select" },
         { field_id := "passport_issue_date", field_name := "Date of issue", field_type := "date" },
         { field_id := "passport_expiry_date", field_name := "Date of expiry", field_type := "date" }] },
     { section_id := "contact_info", section_name := "Contact Information", fields :=
        [{ field_id := "mailing_address", field_name := "Mailing address", field_type := "textarea" },
         { field_id := "residential_address", field_name := "Residential address", field_type := "textarea" },
         { field_id := "telephone", field_name := "Telephone number", field_type := "text" },
         { field_id := "email", field_name := "Email address", field_type := "email" }] },
     { section_id := "education_occupation", section_name := "Education and Occupation", fields :=
        [{ field_id := "education_level", field_name := "Level of education", field_type := "select" },
         { field_id := "current_occupation", field_name := "Current occupation", field_type := "text" },
         { field_id := "intended_occupation", field_name := "Intended occupation in Canada", field_type := "text" }] },
     { section_id := "details_study", section_name := "Details of Study", fields :=
        [{ field_id := "level_of_study", field_name := "Level of study", field_type := "select" },
         { field_id := "field_of_study", field_name := "Field of study", field_type := "text" },
         { field_id := "institution_name", field_name := "Name of institution", field_type := "text" },
         { field_id := "institution_address", field_name := "Address of institution", field_type := "textarea" },
         { field_id := "program_duration", field_name := "Duration of program", field_type := "text" },
         { field_id := "program_start_date", field_name := "Program start date", field_type := "date" },
         { field_id := "tuition_fees", field_name := "Tuition fees (CAD)", field_type := "number" }] },
     { section_id := "funds_financial_support", section_name := "Funds and Financial Support", fields :=
        [{ field_id := "funds_available", field_name := "Funds available for my stay (CAD)", field_type := "number" },
         { field_id := "source_of_funds", field_name := "Source of funds", field_type := "textarea" },
         { field_id := "scholarship", field_name := "Scholarship/Fellowship details", field_type := "textarea", is_required := false }] },
     { section_id := "background_info", section_name := "Background Information", fields :=
        [{ field_id := "previous_study_permit", field_name := "Have you previously applied for a study permit?", field_type := "radio" },
         { field_id := "refused_visa", field_name := "Have you been refused a visa or permit?", field_type := "radio" },
         { field_id := "medical_exam", field_name := "Have you had a medical exam?", field_type := "radio" },
         { field_id := "criminal_charges", field_name := "Have you ever been charged with a criminal offence?", field_type := "radio" }] }] }

/-- `_create_imm5645_template`. -/
def imm5645Template : IRCCForm :=
  { form_type := .IMM5645
    form_title := "Family Information"
    form_version := "01-2024"
    sections :=
    [{ section_id := "applicant_info", section_name := "Applicant Information", fields :=
        [{ field_id := "family_name", field_name := "Family name", field_type := "text" },
         { field_id := "given_names", field_name := "Given names", field_type := "text" },
         { field_id := "date_of_birth", field_name := "Date of birth", field_type := "date" },
         { field_id := "place_of_birth", field_name := "Place of birth", field_type := "text" }] },
     { section_id := "family_members", section_name := "Family Members", fields :=
        [{ field_id := "spouse_info", field_name := "Spouse information", field_type := "textarea", is_required := false },
         { field_id := "children_info", field_name := "Children information", field_type := "textarea", is_required := false },
         { field_id := "parents_info", field_name := "Parents information", field_type := "textarea" },
         { field_id := "siblings_info", field_name := "Siblings information", field_type := "textarea", is_required := false }] }] }

/-- `_create_imm5257_template`. -/
def imm5257Template : IRCCForm :=
  { form_type := .IMM5257
    form_title := "Application for Temporary Resident Visa Made Outside Canada"
    form_version := "03-2014"
    sections :=
    [{ section_id := "personal_details", section_name := "Personal Details", fields :=
        [{ field_id := "family_name", field_name := "Family name", field_type := "text" },
         { field_id := "given_names", field_name := "Given names", field_type := "text" },
         { field_id := "date_of_birth", field_name := "Date of birth", field_type := "date" },
         { field_id := "country_of_birth", field_name := "Country of birth", field_type := "select" }] },
     { section_id := "travel_info", section_name := "Travel Information", fields :=
        [{ field_id := "purpose_of_visit", field_name := "Purpose of visit", field_type := "select" },
         { field_id := "intended_date_arrival", field_name := "Intended date of arrival", field_type := "date" },
         { field_id := "intended_length_stay", field_name := "Intended length of stay", field_type := "text" }] }] }

/-- `self.form_templates[form_type]` (deep-copied per request in the source;
values are immutable here). -/
def formTemplate : FormType → IRCCForm
  | .IMM1294 => imm1294Template
  | .IMM5645 => imm5645Template
  | .IMM5257 => imm5257Template

/-- The field-mapping application loop shared by the three `_auto_fill_*`
functions: `if field.field_id in field_mappings and
field_mappings[field.field_id]: field.value = str(...)`. -/
def applyMappings (form : IRCCForm) (m : List (String × Val)) : IRCCForm :=
  { form with sections := form.sections.map (fun s =>
      { s with fields := s.fields.map (fun f =>
          match pyGet m f.field_id with
          | some v => if pyTruthy v then { f with value := some (pyStr v) } else f
          | none => f) }) }

/-- The `field_mappings` dict of `_auto_fill_imm1294` (the source also reads
`responses.get("language_test", {})` into a local that it never uses). -/
def imm1294Mappings (responses : PyDict) : Except PyErr (List (String × Val)) := do
  let basic_info := pyGetD responses "basic_info" (.vDict [])
  let education_status := pyGetD responses "education_status" (.vDict [])
  let financial_status := pyGetD responses "financial_status" (.vDict [])
  let medical_exam := pyGetD responses "medical_exam" (.vDict [])
  let dob ← pyValGetD basic_info "date_of_birth" .vNone
  let cob ← pyValGetD basic_info "passport_country_code" .vNone
  let pc ← pyValGetD basic_info "passport_country_code" .vNone
  let inst ← pyValGetD education_status "institution_name" .vNone
  let pdur ← pyValGetD education_status "program_duration" .vNone
  let psd ← pyValGetD education_status "program_start_date" .vNone
  let tf ← pyValGetD financial_status "tuition_amount" .vNone
  let fa ← pyValGetD financial_status "gic_amount" .vNone
  let sof ← pyValGetD financial_status "funding_source" .vNone
  let me ← pyValGetD medical_exam "has_medical_exam" .vNone
  pure
    [("date_of_birth", dob),
     ("country_of_birth", cob),
     ("marital_status", pyGetD responses "marital_status" (.vStr "Never Married/Single")),
     ("passport_country", pc),
     ("institution_name", inst),
     ("program_duration", pdur),
     ("program_start_date", psd),
     ("tuition_fees", tf),
     ("funds_available", fa),
     ("source_of_funds", sof),
     ("medical_exam", .vStr (if pyTruthy me then "Yes" else "No")),
     ("criminal_charges",
      .vStr (if !pyTruthy (pyGetD responses "criminal_background" .vNone) then "No" else "Yes"))]

/-- The `field_mappings` dict of `_auto_fill_imm5645`. -/
def imm5645Mappings (responses : PyDict) : Except PyErr (List (String × Val)) := do
  let basic_info := pyGetD responses "basic_info" (.vDict [])
  let dob ← pyValGetD basic_info "date_of_birth" .vNone
  let pob ← pyValGetD basic_info "current_residence" .vNone
  pure
    [("date_of_birth", dob),
     ("place_of_birth", pob),
     ("spouse_info",
      .vStr (if pyEqStr (pyGetD responses "marital_status" .vNone) "Never Married/Single"
             then "Not applicable" else "")),
     ("parents_info", .vStr "To be provided based on family questionnaire")]

/-- The `field_mappings` dict of `_auto_fill_imm5257`. -/
def imm5257Mappings (responses : PyDict) : Except PyErr (List (String × Val)) := do
  let basic_info := pyGetD responses "basic_info" (.vDict [])
  let education_status := pyGetD responses "education_status" (.vDict [])
  let dob ← pyValGetD basic_info "date_of_birth" .vNone
  let cob ← pyValGetD basic_info "passport_country_code" .vNone
  let ida ← pyValGetD education_status "program_start_date" .vNone
  let ils ← pyValGetD education_status "program_duration" .vNone
  pure
    [("date_of_birth", dob),
     ("country_of_birth", cob),
     ("purpose_of_visit", .vStr "Study"),
     ("intended_date_arrival", ida),
     ("intended_length_stay", ils)]

/-- `field.value and field.value.strip()`: a field counts as filled when its
value is a non-blank string. -/
def isFilledValue : Option String → Bool
  | some s => (s != "") && (pyStrip s != "")
  | none => false

/-- `_validate_form`: count all fields and the filled ones (required or not),
record one error message per unfilled required field, and set the derived
attributes. -/
def validate_form (form : IRCCForm) : IRCCForm :=
  let allFields := (form.sections.map (·.fields)).join
  let total := allFields.length
  let completed := (allFields.filter (fun f => isFilledValue f.value)).length
  let errors := (allFields.filter (fun f => !isFilledValue f.value && f.is_required)).map
      (fun f => "Required field \x27" ++ f.field_name ++ "\x27 is empty")
  { form with
    completion_percentage := if 0 < total then (completed : Rat) / (total : Rat) * 100 else 0
    is_valid := errors.isEmpty
    validation_errors := errors }

/-- `auto_fill_form(form_type, questionnaire_responses)`: take the template,
apply the form-specific mapping, validate. -/
def auto_fill_form (ft : FormType) (responses : PyDict) : Except PyErr IRCCForm := do
  let form := formTemplate ft
  let mappings ← match ft with
    | .IMM1294 => imm1294Mappings responses
    | .IMM5645 => imm5645Mappings responses
    | .IMM5257 => imm5257Mappings responses
  pure (validate_form (applyMappings form mappings))

/-- `_needs_trv(responses)`: passport country of `basic_info` against the
hard-coded five-country list (India, China, Pakistan, Bangladesh, Nigeria). -/
def needs_trv (responses : PyDict) : Except PyErr Bool := do
  let pc ← pyValGetD (pyGetD responses "basic_info" (.vDict [])) "passport_country_code" .vNone
  pure (["IND", "CHN", "PAK", "BGD", "NGA"].any (fun c => pyEqStr pc c))

/-- `generate_all_forms(questionnaire_responses)`: the two mandatory forms
always, IMM5257 exactly when `_needs_trv` holds. -/
def generate_all_forms (responses : PyDict) :
    Except PyErr (List (FormType × IRCCForm)) := do
  let f1 ← auto_fill_form .IMM1294 responses
  let f2 ← auto_fill_form .IMM5645 responses
  let t ← needs_trv responses
  if t then
    let f3 ← auto_fill_form .IMM5257 responses
    pure [(.IMM1294, f1), (.IMM5645, f2), (.IMM5257, f3)]
  else
    pure [(.IMM1294, f1), (.IMM5645, f2)]

/-- The value carried by field `fid` of a form (looked up across its
sections). -/
def formFieldValue (form : IRCCForm) (fid : String) : Option (Option String) :=
  (((form.sections.map (·.fields)).join).find? (fun f => f.field_id == fid)).map (·.value)

/-! ## Lambda form generation (`src/lambdas/form_fill.py`)

`generate_application_forms` merges the flat questionnaire answers and the
OCR-derived data by dict spread — `merged_data = {**answers, **ocr_data}` —
with the OCR entries written second, and builds flat field dicts for the
three forms from the merged map (the S3 persistence and URL bookkeeping are
side effects outside the data model). -/

/-- `s.upper()` on a looked-up value: raises `AttributeError` on a
non-string. -/
def pyUpper (v : Val) : Except PyErr String :=
  match v with
  | .vStr s => .ok (pyUpperStr s)
  | _ => .error (.attributeError "upper")

/-- `needs_visitor_visa(data)`: upper-cased flat `passport_country_code`
against the six-country list (India, China, Pakistan, Bangladesh, Nepal,
Sri Lanka). -/
def needs_visitor_visa (data : PyDict) : Except PyErr Bool := do
  let cc ← pyUpper (pyGetD data "passport_country_code" (.vStr ""))
  pure (["IND", "CHN", "PAK", "BGD", "NPL", "LKA"].contains cc)

/-- `merged_data = {**answers, **ocr_data}`. -/
def mergedData (answers ocr_data : PyDict) : PyDict :=
  pyUpdate answers ocr_data

/-- The `fields` dict of `generate_imm1294_form(data)`. -/
def imm1294LambdaFields (data : PyDict) : PyDict :=
  [("family_name", pyGetD data "family_name" (.vStr "")),
   ("given_names", pyGetD data "given_names" (.vStr "")),
   ("date_of_birth", pyGetD data "date_of_birth" (.vStr "")),
   ("country_of_birth", pyGetD data "country_of_birth" (.vStr "")),
   ("citizenship", pyGetD data "nationality" (.vStr "")),
   ("sex", pyGetD data "sex" (.vStr "")),
   ("marital_status", pyGetD data "marital_status" (.vStr "")),
   ("current_address", pyGetD data "current_address" (.vStr "")),
   ("phone_number", pyGetD data "phone_number" (.vStr "")),
   ("email", pyGetD data "email" (.vStr "")),
   ("passport_number", pyGetD data "passport_number" (.vStr "")),
   ("passport_issue_date", pyGetD data "passport_issue_date" (.vStr "")),
   ("passport_expiry_date", pyGetD data "passport_expiry_date" (.vStr "")),
   ("institution_name", pyGetD data "institution_name" (.vStr "")),
   ("program_name", pyGetD data "program_name" (.vStr "")),
   ("field_of_study", pyGetD data "field_of_study" (.vStr "")),
   ("program_start_date", pyGetD data "program_start_date" (.vStr "")),
   ("program_duration", pyGetD data "program_duration" (.vStr "")),
   ("tuition_fees", pyGetD data "tuition_amount" (.vStr "")),
   ("living_expenses", pyGetD data "living_expenses" (.vStr "")),
   ("funds_available", pyGetD data "gic_amount" (.vStr "")),
   ("language_test_type", pyGetD data "test_type" (.vStr "")),
   ("language_test_results", .vStr (jsonDump (pyGetD data "ielts_scores" (.vDict []))))]

/-- The `fields` dict of `generate_imm5645_form(data)` (the applicant name is
an f-string over the two name parts). -/
def imm5645LambdaFields (data : PyDict) : PyDict :=
  [("applicant_name",
    .vStr (pyStr (pyGetD data "given_names" (.vStr "")) ++ " "
      ++ pyStr (pyGetD data "family_name" (.vStr "")))),
   ("applicant_date_of_birth", pyGetD data "date_of_birth" (.vStr "")),
   ("spouse_name", pyGetD data "spouse_name" (.vStr "")),
   ("spouse_date_of_birth", pyGetD data "spouse_date_of_birth" (.vStr "")),
   ("children_count", pyGetD data "children_count" (.vInt 0)),
   ("father_name", pyGetD data "father_name" (.vStr "")),
   ("father_date_of_birth", pyGetD data "father_date_of_birth" (.vStr "")),
   ("mother_name", pyGetD data "mother_name" (.vStr "")),
   ("mother_date_of_birth", pyGetD data "mother_date_of_birth" (.vStr ""))]

/-- The `fields` dict of `generate_imm5257_form(data)`. -/
def imm5257LambdaFields (data : PyDict) : PyDict :=
  [("family_name", pyGetD data "family_name" (.vStr "")),
   ("given_names", pyGetD data "given_names" (.vStr "")),
   ("date_of_birth", pyGetD data "date_of_birth" (.vStr "")),
   ("citizenship", pyGetD data "nationality" (.vStr "")),
   ("purpose_of_visit", .vStr "Study"),
   ("duration_of_stay", pyGetD data "program_duration" (.vStr "")),
   ("current_address", pyGetD data "current_address" (.vStr "")),
   ("phone_number", pyGetD data "phone_number" (.vStr "")),
   ("email", pyGetD data "email" (.vStr ""))]

/-- The forms dict built by `generate_application_forms` after dropping the
`None` entry: the two study-permit forms always, the TRV form when
`needs_visitor_visa(merged_data)` holds, each generated from the merged
map. -/
def generate_application_forms (answers ocr_data : PyDict) :
    Except PyErr (List (String × PyDict)) := do
  let merged := mergedData answers ocr_data
  let needsTrv ← needs_visitor_visa merged
  if needsTrv then
    pure [("IMM1294", imm1294LambdaFields merged),
          ("IMM5645", imm5645LambdaFields merged),
          ("IMM5257", imm5257LambdaFields merged)]
  else
    pure [("IMM1294", imm1294LambdaFields merged),
          ("IMM5645", imm5645LambdaFields merged)]

/-- The form the repository's own unit test feeds to `_validate_form`: one
filled required field, one empty required field, one empty optional field. -/
def c6TestForm : IRCCForm :=
  { form_type := .IMM1294
    form_title := "Test Form"
    form_version := "1.0"
    sections :=
      [{ section_id := "test_section", section_name := "Test Section", fields :=
          [{ field_id := "required_filled", field_name := "Required Filled",
             field_type := "text", value := some "test" },
           { field_id := "required_empty", field_name := "Required Empty",
             field_type := "text", value := some "" },
           { field_id := "optional_empty", field_name := "Optional Empty",
             field_type := "text", value := some "", is_required := false }] }] }

/-- Responses with a Nepalese passport, the nesting `generate_all_forms`
expects. -/
def c2NplResponses : PyDict :=
  [("basic_info", .vDict [("passport_country_code", .vStr "NPL")])]

/-- Responses with an Indian passport (as in the repository's unit test). -/
def c2IndResponses : PyDict :=
  [("basic_info", .vDict [("passport_country_code", .vStr "IND")])]

/-- The end-to-end scenario's session answer map, exactly as the spec lists
it (a flat map of question ids). -/
def c1Answers : PyDict :=
  [("passport_country_code", .vStr "IND"), ("has_sds_gic", .vBool true),
   ("gic_amount", .vFloat 20635), ("has_language_test", .vBool true),
   ("overall_score", .vFloat 7), ("has_medical_exam", .vBool true),
   ("has_provincial_attestation", .vBool true), ("criminal_background", .vBool false)]

/-- The same answers arranged by questionnaire section, the shape
`form_service` reads (`basic_info`, `financial_status`, …). -/
def c1NestedResponses : PyDict :=
  [("basic_info", .vDict [("passport_country_code", .vStr "IND")]),
   ("financial_status", .vDict [("has_sds_gic", .vBool true), ("gic_amount", .vFloat 20635)]),
   ("language_test", .vDict [("has_language_test", .vBool true), ("overall_score", .vFloat 7)]),
   ("medical_exam", .vDict [("has_medical_exam", .vBool true)]),
   ("criminal_background", .vBool false)]

/-! ## Wizard question tree (`src/api/v1/wizard.py`, `build_question_tree`
and `GET /wizard/tree/{session_id}`)

The static tree is sections → steps → questions; each question carries an
id, prompt text, type, required flag and an optional conditional-visibility
rule.  (Option lists, placeholders, help texts and validation bounds are
presentational metadata not consulted by any logic in the backend; they are
not modelled.)  The tree endpoint flattens steps into their sections,
renames presentation fields, and attaches navigation metadata. -/

structure ConditionalRule where
  depends_on : String
  show_if : List String
  deriving Repr, DecidableEq

structure Question where
  question_id : String
  question_text : String
  question_type : String
  required : Bool
  conditional_logic : Option ConditionalRule := none
  deriving Repr, DecidableEq

structure WizardStep where
  step_id : String
  step_name : String
  questions : List Question
  deriving Repr, DecidableEq

structure WizardSection where
  section_id : String
  section_name : String
  steps : List WizardStep
  deriving Repr, DecidableEq

/-- `build_question_tree()`. -/
def build_question_tree : List WizardSection :=
  [{ section_id := "getting_started", section_name := "Getting Started", steps :=
      [{ step_id := "basic_info", step_name := "Basic Information", questions :=
          [{ question_id := "purpose_in_canada",
             question_text := "What would you like to do in Canada?",
             question_type := "single_choice", required := true },
           { question_id := "duration_of_stay",
             question_text := "How long are you planning to stay?",
             question_type := "single_choice", required := true,
             conditional_logic := some
               { depends_on := "purpose_in_canada", show_if := ["Study", "Work"] } },
           { question_id := "passport_country_code",
             question_text := "What country issued your passport?",
             question_type := "country_select", required := true },
           { question_id := "current_residence",
             question_text := "What country do you currently live in?",
             question_type := "country_select", required := true },
           { question_id := "has_canadian_family",
             question_text := "Do you have a family member who is a Canadian citizen or permanent resident?",
             question_type := "yes_no", required := true },
           { question_id := "date_of_birth",
             question_text := "What is your date of birth?",
             question_type := "date", required := true }] }] },
   { section_id := "education_background", section_name := "Education Background", steps :=
      [{ step_id := "education_status", step_name := "Education Status", questions :=
          [{ question_id := "has_provincial_attestation",
             question_text := "Do you have a provincial attestation letter (PAL) or territorial attestation letter (TAL)?",
             question_type := "yes_no", required := true },
           { question_id := "attestation_province",
             question_text := "Which province or territory issued your attestation letter?",
             question_type := "province_select", required := true,
             conditional_logic := some
               { depends_on := "has_provincial_attestation", show_if := ["Yes"] } },
           { question_id := "accepted_to_dli",
             question_text := "Have you been accepted to a designated learning institution (DLI)?",
             question_type := "yes_no", required := true },
           { question_id := "post_secondary_institution",
             question_text := "Is this a post-secondary designated learning institution?",
             question_type := "yes_no", required := true,
             conditional_logic := some
               { depends_on := "accepted_to_dli", show_if := ["Yes"] } },
           { question_id := "institution_name",
             question_text := "What is the name of your institution?",
             question_type := "text", required := true,
             conditional_logic := some
               { depends_on := "accepted_to_dli", show_if := ["Yes"] } },
           { question_id := "program_name",
             question_text := "What program will you be studying?",
             question_type := "text", required := true,
             conditional_logic := some
               { depends_on := "accepted_to_dli", show_if := ["Yes"] } },
           { question_id := "program_duration",
             question_text := "What is the duration of your program?",
             question_type := "single_choice", required := true,
             conditional_logic := some
               { depends_on := "accepted_to_dli", show_if := ["Yes"] } },
           { question_id := "program_start_date",
             question_text := "When does your program start?",
             question_type := "date", required := true,
             conditional_logic := some
               { depends_on := "accepted_to_dli", show_if := ["Yes"] } }] }] },
   { section_id := "financial_information", section_name := "Financial Information", steps :=
      [{ step_id := "financial_status", step_name := "Financial Proof", questions :=
          [{ question_id := "has_sds_gic",
             question_text := "Do you have a Guaranteed Investment Certificate (GIC) from a participating Canadian financial institution for at least $20,635?",
             question_type := "yes_no", required := true },
           { question_id := "tuition_paid_full",
             question_text := "Have you paid your first year tuition in full?",
             question_type := "yes_no", required := true },
           { question_id := "gic_amount",
             question_text := "What is the amount of your GIC (in CAD)?",
             question_type := "number", required := true,
             conditional_logic := some
               { depends_on := "has_sds_gic", show_if := ["Yes"] } },
           { question_id := "tuition_amount",
             question_text := "How much tuition have you paid (in CAD)?",
             question_type := "number", required := true,
             conditional_logic := some
               { depends_on := "tuition_paid_full", show_if := ["Yes"] } },
           { question_id := "funding_source",
             question_text := "What is your source of funding?",
             question_type := "multiple_choice", required := true }] }] },
   { section_id := "language_requirements", section_name := "Language Requirements", steps :=
      [{ step_id := "language_test", step_name := "Language Test Results", questions :=
          [{ question_id := "has_language_test",
             question_text := "Have you taken a language test in the past 2 years?",
             question_type := "yes_no", required := true },
           { question_id := "test_type",
             question_text := "Which language test did you take?",
             question_type := "single_choice", required := true,
             conditional_logic := some
               { depends_on := "has_language_test", show_if := ["Yes"] } },
           { question_id := "all_scores_6_plus",
             question_text := "Are all your IELTS scores 6.0 or higher?",
             question_type := "yes_no", required := true,
             conditional_logic := some
               { depends_on := "test_type", show_if := ["IELTS"] } },
           { question_id := "listening_score",
             question_text := "IELTS Listening score",
             question_type := "number", required := true,
             conditional_logic := some
               { depends_on := "test_type", show_if := ["IELTS"] } },
           { question_id := "reading_score",
             question_text := "IELTS Reading score",
             question_type := "number", required := true,
             conditional_logic := some
               { depends_on := "test_type", show_if := ["IELTS"] } },
           { question_id := "writing_score",
             question_text := "IELTS Writing score",
             question_type := "number", required := true,
             conditional_logic := some
               { depends_on := "test_type", show_if := ["IELTS"] } },
           { question_id := "speaking_score",
             question_text := "IELTS Speaking score",
             question_type := "number", required := true,
             conditional_logic := some
               { depends_on := "test_type", show_if := ["IELTS"] } },
           { question_id := "overall_score",
             question_text := "IELTS Overall score",
             question_type := "number", required := true,
             conditional_logic := some
               { depends_on := "test_type", show_if := ["IELTS"] } }] }] },
   { section_id := "medical_background", section_name := "Medical Information", steps :=
      [{ step_id := "medical_exam", step_name := "Medical Examination", questions :=
          [{ question_id := "has_medical_exam",
             question_text := "Have you had a medical exam performed by a panel physician within the last 12 months?",
             question_type := "yes_no", required := true },
           { question_id := "exam_date",
             question_text := "When did you have your medical exam?",
             question_type := "date", required := true,
             conditional_logic := some
               { depends_on := "has_medical_exam", show_if := ["Yes"] } },
           { question_id := "panel_physician",
             question_text := "Which panel physician performed your exam?",
             question_type := "text", required := true,
             conditional_logic := some
               { depends_on := "has_medical_exam", show_if := ["Yes"] } },
           { question_id := "medical_ref_number",
             question_text := "What is your medical reference number?",
             question_type := "text", required := true,
             conditional_logic := some
               { depends_on := "has_medical_exam", show_if := ["Yes"] } }] }] },
   { section_id := "background_checks", section_name := "Background Information", steps :=
      [{ step_id := "personal_background", step_name := "Personal Background", questions :=
          [{ question_id := "marital_status",
             question_text := "What is your marital status?",
             question_type := "single_choice", required := true },
           { question_id := "destination_province",
             question_text := "Which province or territory will you be studying in?",
             question_type := "province_select", required := true },
           { question_id := "criminal_background",
             question_text := "Have you ever been charged with, on trial for, or party to a crime or offence, or subject of any criminal proceedings in any country?",
             question_type := "yes_no", required := true },
           { question_id := "has_valid_permits",
             question_text := "Do you currently have valid status in Canada (work permit, study permit, etc.)?",
             question_type := "yes_no", required := true },
           { question_id := "wants_family_application",
             question_text := "Do you want to include family members in your application?",
             question_type := "yes_no", required := true },
           { question_id := "has_biometrics",
             question_text := "Have you given your biometrics for a Canadian visa, permit or citizenship application in the past 10 years?",
             question_type := "yes_no", required := true }] }] },
   { section_id := "final_steps", section_name := "Final Steps", steps :=
      [{ step_id := "fees_payment", step_name := "Fees and Payment", questions :=
          [{ question_id := "will_pay_fees",
             question_text := "Are you ready to pay the application fees?",
             question_type := "yes_no", required := true },
           { question_id := "pay_online",
             question_text := "Do you want to pay online?",
             question_type := "yes_no", required := true,
             conditional_logic := some
               { depends_on := "will_pay_fees", show_if := ["Yes"] } },
           { question_id := "can_scan_documents",
             question_text := "Can you scan or take clear photos of your documents?",
             question_type := "yes_no", required := true }] }] }]

/-- A section of the flattened wizard tree returned by the endpoint (the
endpoint also renames `question_id` to `id` and so on; those renamings are
presentational). -/
structure FlatSection where
  section_id : String
  section_name : String
  questions : List Question
  deriving Repr, DecidableEq

/-- The navigation envelope of `GET /wizard/tree/{session_id}`. -/
structure WizardTree where
  session_id : String
  current_step : String
  total_steps : Nat
  completion_percentage : Rat
  sections : List FlatSection
  deriving Repr, DecidableEq

/-- The step-flattening loop of `get_wizard_tree`: every step's questions are
appended into its section. -/
def flattenSections (secs : List WizardSection) : List FlatSection :=
  secs.map (fun s =>
    { section_id := s.section_id
      section_name := s.section_name
      questions := (s.steps.map (·.questions)).join })

/-- `get_wizard_tree(session_id)`: the flattened static tree with the
literal navigation metadata of the handler (`current_step = "basic_info"`,
`total_steps = 21`, `completion_percentage = 0`); no session state is
consulted. -/
def get_wizard_tree (session_id : String) : WizardTree :=
  { session_id := session_id
    current_step := "basic_info"
    total_steps := 21
    completion_percentage := 0
    sections := flattenSections build_question_tree }

/-- Modelled from the spec: the backend ships each question's
`conditional_logic` rule to the client but contains no server-side
visible-question filter, so §4.1's membership test is modelled from the
spec's words — the dependency answer matches a `show_if` entry
case-sensitively for strings, and boolean-equivalently (`true ↦ "Yes"`,
`false ↦ "No"`) for yes/no answers. -/
def answerMatchesShowIf (v : Val) (s : String) : Bool :=
  match v with
  | .vStr t => t == s
  | .vBool b => (if b then "Yes" else "No") == s
  | _ => false

/-- Modelled from the spec: a question with no rule is always visible; a
question with a rule is visible iff the answer at `dependsOnQuestionId` is
present and matches a member of `showIfValues`; a missing dependency answer
hides the question. -/
def questionVisible (answers : PyDict) (q : Question) : Bool :=
  match q.conditional_logic with
  | none => true
  | some rule =>
    match pyGet answers rule.depends_on with
    | none => false
    | some v => rule.show_if.any (fun s => answerMatchesShowIf v s)

/-- Modelled from the spec: `visibleQuestions(sectionId, answers)` filters a
question list by `questionVisible`. -/
def visibleQuestions (answers : PyDict) (qs : List Question) : List Question :=
  qs.filter (questionVisible answers)

/-- The questions of one flattened section of the static tree. -/
def sectionQuestions (sid : String) : List Question :=
  ((((flattenSections build_question_tree).find?
      (fun s => s.section_id == sid)).map (·.questions)).getD [])

/-- The `duration_of_stay` question as defined in the static tree. -/
def durationOfStayQuestion : Question :=
  { question_id := "duration_of_stay"
    question_text := "How long are you planning to stay?"
    question_type := "single_choice", required := true
    conditional_logic := some
      { depends_on := "purpose_in_canada", show_if := ["Study", "Work"] } }

/-- The completion formula §6 of the spec claims for the tree endpoint:
answered required questions over total required questions across the
questions visible under the current answers (a second definition, written
from the spec's words, to compare against the endpoint's actual output). -/
def specCompletionPercentage (answers : PyDict) : Rat :=
  let visible := (((flattenSections build_question_tree).map (·.questions)).join).filter
    (questionVisible answers)
  let required := visible.filter (·.required)
  let answered := required.filter (fun q => pyHasKey answers q.question_id)
  if required.length = 0 then 0
  else (answered.length : Rat) / (required.length : Rat) * 100

/-! ## OCR field mapper (`src/lambdas/ocr_handler.py`)

`map_ocr_to_questionnaire_fields` concatenates the recognized text lines into
one lowercase string, then evaluates nine field extractors; each extractor
first scans the `form_data` key/value pairs for keyword-bearing keys and then
falls back to an ordered list of regular expressions over the text, first
match winning.  The regular expressions are embedded as patterns for a small
backtracking engine below that mirrors Python `re.search` semantics (leftmost
match position, alternatives in order, greedy repetition, one capture group);
the engine recurses on an explicit fuel that strictly dominates the
backtracking depth for these patterns. -/

/-- Is `needle` a substring of `hay` (Python's `in` on strings)? -/
def listPrefixB : List Char → List Char → Bool
  | [], _ => true
  | _ :: _, [] => false
  | a :: as, b :: bs => a == b && listPrefixB as bs

def listSubB (needle : List Char) : List Char → Bool
  | [] => needle.isEmpty
  | hay@(_ :: rest) => listPrefixB needle hay || listSubB needle rest

def strContainsB (needle hay : String) : Bool :=
  listSubB needle.data hay.data

/-- Python `s.split()`: split on whitespace runs, discarding empties. -/
def splitWsAux : List Char → List Char → List String
  | [], acc => if acc.isEmpty then [] else [⟨acc.reverse⟩]
  | c :: rest, acc =>
    if c.isWhitespace then
      if acc.isEmpty then splitWsAux rest []
      else ⟨acc.reverse⟩ :: splitWsAux rest []
    else splitWsAux rest (c :: acc)

def splitWsList (s : String) : List String :=
  splitWsAux s.data []

/-- Python `s.title()`: a letter after a non-letter is upper-cased, any other
letter lower-cased. -/
def titleAux : List Char → Bool → List Char
  | [], _ => []
  | c :: rest, prevAlpha =>
    (if c.isAlpha then (if prevAlpha then c.toLower else c.toUpper) else c)
      :: titleAux rest c.isAlpha

def pyTitle (s : String) : String :=
  ⟨titleAux s.data false⟩

/-- `' '.join(parts)`. -/
def joinSpace : List String → String
  | [] => ""
  | [s] => s
  | s :: rest => s ++ " " ++ joinSpace rest

/-- Regular-expression pattern AST: the constructs used by the OCR handler's
patterns (literals, character classes, sequencing, ordered alternation,
greedy bounded/unbounded repetition, and the single capture group). -/
inductive Pat where
  | lit : String → Pat
  | cls : (Char → Bool) → Pat
  | seq : List Pat → Pat
  | alt : List Pat → Pat
  | rep : Pat → Nat → Option Nat → Pat
  | grp : Pat → Pat

/-- Case-insensitive literal prefix match (the handler compiles every pattern
with `re.IGNORECASE`; literals are written lower-case). -/
def litPrefix : List Char → List Char → Bool
  | [], _ => true
  | _ :: _, [] => false
  | a :: as, b :: bs => a == b.toLower && litPrefix as bs

mutual

/-- A weight dominating the engine's recursion depth for pattern `p` over an
input of length `n`. -/
def patWeight (n : Nat) : Pat → Nat
  | .lit s => s.length + 2
  | .cls _ => 2
  | .seq ps => 2 + patWeightList n ps
  | .alt ps => 2 + patWeightList n ps
  | .rep p mn mx => 2 + (patWeight n p + 1) * (mn + mx.getD (n + 1) + 2)
  | .grp p => 2 + patWeight n p

def patWeightList (n : Nat) : List Pat → Nat
  | [] => 1
  | p :: ps => patWeight n p + patWeightList n ps

end

/-- Backtracking matcher in continuation style: try to match `p` at the head
of `s`, calling `k` with the remaining input and the capture recorded so far;
the first success (in Python's preference order) wins.  Runs on fuel; a
successful result carries the capture of group 1. -/
def reMatch : Nat → Pat → List Char → Option (List Char) →
    (List Char → Option (List Char) → Option (Option (List Char))) →
    Option (Option (List Char))
  | 0, _, _, _, _ => none
  | fuel + 1, .lit l, s, cap, k =>
    if litPrefix l.data s then k (s.drop l.length) cap else none
  | fuel + 1, .cls f, s, cap, k =>
    match s with
    | c :: rest => if f c then k rest cap else none
    | [] => none
  | fuel + 1, .seq [], s, cap, k => k s cap
  | fuel + 1, .seq (p :: ps), s, cap, k =>
    reMatch fuel p s cap (fun s2 c2 => reMatch fuel (.seq ps) s2 c2 k)
  | fuel + 1, .alt [], _, _, _ => none
  | fuel + 1, .alt (p :: ps), s, cap, k =>
    match reMatch fuel p s cap k with
    | some r => some r
    | none => reMatch fuel (.alt ps) s cap k
  | fuel + 1, .rep p mn mx, s, cap, k =>
    if mn > 0 then
      reMatch fuel p s cap (fun s2 c2 =>
        reMatch fuel (.rep p (mn - 1) (mx.map (· - 1))) s2 c2 k)
    else
      match mx with
      | some 0 => k s cap
      | _ =>
        match reMatch fuel p s cap (fun s2 c2 =>
            reMatch fuel (.rep p 0 (mx.map (· - 1))) s2 c2 k) with
        | some r => some r
        | none => k s cap
  | fuel + 1, .grp p, s, cap, k =>
    reMatch fuel p s cap (fun s2 _ => k s2 (some (s.take (s.length - s2.length))))

/-- Scan the match positions left to right (`re.search`), returning group 1
of the first match. -/
def reSearchFrom (p : Pat) (fuel : Nat) : List Char → Option String
  | [] =>
    match reMatch fuel p [] none (fun _ c => some c) with
    | some c => some (⟨(c.getD [])⟩ : String)
    | none => none
  | s@(_ :: rest) =>
    match reMatch fuel p s none (fun _ c => some c) with
    | some c => some (⟨(c.getD [])⟩ : String)
    | none => reSearchFrom p fuel rest

def reSearch (p : Pat) (text : String) : Option String :=
  reSearchFrom p ((patWeight text.length p + 2) * (text.length + 2)) text.data

/-- First pattern of an ordered pattern list to match anywhere in the text
wins (`for pattern in patterns: ... if match: return match.group(1)`). -/
def firstSearch : List Pat → String → Option String
  | [], _ => none
  | p :: ps, text =>
    match reSearch p text with
    | some g => some g
    | none => firstSearch ps text

/-! Character classes and pattern abbreviations for the handler's regular
expressions. -/

def clsWs : Pat := .cls Char.isWhitespace

def pWs : Pat := .rep clsWs 0 none

def pOpt (p : Pat) : Pat := .rep p 0 (some 1)

def clsAlnum : Pat := .cls (fun c => c.isAlpha || c.isDigit)

def clsAlpha : Pat := .cls Char.isAlpha

def clsDigit : Pat := .cls Char.isDigit

def clsAlphaWs : Pat := .cls (fun c => c.isAlpha || c.isWhitespace)

def clsDateSep : Pat := .cls (fun c => c == '/' || c == '-')

/-- `passport\s*(?:no|number|#)?\s*:?\s*([A-Z0-9]{6,9})`. -/
def passportPat1 : Pat :=
  .seq [.lit "passport", pWs, pOpt (.alt [.lit "no", .lit "number", .lit "#"]),
        pWs, pOpt (.lit ":"), pWs, .grp (.rep clsAlnum 6 (some 9))]

/-- `passport\s*([A-Z0-9]{6,9})`. -/
def passportPat2 : Pat :=
  .seq [.lit "passport", pWs, .grp (.rep clsAlnum 6 (some 9))]

/-- `([A-Z]{1,2}[0-9]{6,8})`. -/
def passportPat3 : Pat :=
  .grp (.seq [.rep clsAlpha 1 (some 2), .rep clsDigit 6 (some 8)])

/-- `<keyword>\s*:?\s*([A-Za-z\s]{2,50})` for the three name keywords. -/
def namePat (keyword : String) : Pat :=
  .seq [.lit keyword, pWs, pOpt (.lit ":"), pWs, .grp (.rep clsAlphaWs 2 (some 50))]

/-- the numeric date pattern: 1-2 digits, a slash-or-dash separator, 1-2 digits, the separator again, 2-4 digits. -/
def datePat : Pat :=
  .grp (.seq [.rep clsDigit 1 (some 2), clsDateSep, .rep clsDigit 1 (some 2),
              clsDateSep, .rep clsDigit 2 (some 4)])

/-- `(?:date\s*of\s*birth|dob|birth\s*date)\s*:?\s*<date>`. -/
def dobPat1 : Pat :=
  .seq [.alt [.seq [.lit "date", pWs, .lit "of", pWs, .lit "birth"],
              .lit "dob", .seq [.lit "birth", pWs, .lit "date"]],
        pWs, pOpt (.lit ":"), pWs, datePat]

/-- `(?:born|birth)\s*:?\s*<date>`. -/
def dobPat2 : Pat :=
  .seq [.alt [.lit "born", .lit "birth"], pWs, pOpt (.lit ":"), pWs, datePat]

/-- `<label>\s*:?\s*(\d+\.?\d*)` for the five IELTS score labels. -/
def scorePat (label : String) : Pat :=
  .seq [.lit label, pWs, pOpt (.lit ":"), pWs,
        .grp (.seq [.rep clsDigit 1 none, pOpt (.lit "."), .rep clsDigit 0 none])]

/-- `(?:university|college|institute|school)\s*(?:of|at)?\s*([A-Za-z\s]{2,50})`. -/
def institutionPat1 : Pat :=
  .seq [.alt [.lit "university", .lit "college", .lit "institute", .lit "school"],
        pWs, pOpt (.alt [.lit "of", .lit "at"]), pWs, .grp (.rep clsAlphaWs 2 (some 50))]

/-- `([A-Za-z\s]{2,50})\s*(?:university|college|institute)`. -/
def institutionPat2 : Pat :=
  .seq [.grp (.rep clsAlphaWs 2 (some 50)), pWs,
        .alt [.lit "university", .lit "college", .lit "institute"]]

/-- `(\d+(?:,\d{3})*(?:\.\d{2})?)` — a money amount with optional thousands
separators and cents. -/
def amountGroup : Pat :=
  .grp (.seq [.rep clsDigit 1 none,
              .rep (.seq [.lit ",", .rep clsDigit 3 (some 3)]) 0 none,
              pOpt (.seq [.lit ".", .rep clsDigit 2 (some 2)])])

/-- `gic\s*(?:amount)?\s*:?\s*(?:cad|can\$|\$)?\s*<amount>`. -/
def gicPat1 : Pat :=
  .seq [.lit "gic", pWs, pOpt (.lit "amount"), pWs, pOpt (.lit ":"), pWs,
        pOpt (.alt [.lit "cad", .lit "can$", .lit "$"]), pWs, amountGroup]

/-- `guaranteed\s*investment\s*certificate\s*:?\s*(?:cad|can\$|\$)?\s*<amount>`. -/
def gicPat2 : Pat :=
  .seq [.lit "guaranteed", pWs, .lit "investment", pWs, .lit "certificate",
        pWs, pOpt (.lit ":"), pWs, pOpt (.alt [.lit "cad", .lit "can$", .lit "$"]),
        pWs, amountGroup]

/-- `tuition\s*(?:fee|fees)?\s*:?\s*(?:cad|can\$|\$)?\s*<amount>`. -/
def tuitionPat1 : Pat :=
  .seq [.lit "tuition", pWs, pOpt (.alt [.lit "fee", .lit "fees"]), pWs,
        pOpt (.lit ":"), pWs, pOpt (.alt [.lit "cad", .lit "can$", .lit "$"]),
        pWs, amountGroup]

/-- `program\s*fee\s*:?\s*(?:cad|can\$|\$)?\s*<amount>`. -/
def tuitionPat2 : Pat :=
  .seq [.lit "program", pWs, .lit "fee", pWs, pOpt (.lit ":"), pWs,
        pOpt (.alt [.lit "cad", .lit "can$", .lit "$"]), pWs, amountGroup]

/-- `form_data.items()`: raises `AttributeError` on a non-dict. -/
def pyItems (v : Val) : Except PyErr (List (String × Val)) :=
  match v with
  | .vDict d => .ok d
  | _ => .error (.attributeError "items")

/-- The first form-data value whose key (lower-cased) contains every word of
`words` — used with a single keyword list by most extractors. -/
def findEntryByKeywords (words : List String) : List (String × Val) → Option Val
  | [] => none
  | (k, v) :: rest =>
    if words.any (fun w => strContainsB w (pyLowerStr k)) then some v
    else findEntryByKeywords words rest

/-- The passport scan wants both `passport` and `number` in the key. -/
def findPassportEntry : List (String × Val) → Option Val
  | [] => none
  | (k, v) :: rest =>
    if strContainsB "passport" (pyLowerStr k) && strContainsB "number" (pyLowerStr k)
    then some v
    else findPassportEntry rest

/-- `int(digit string)` / fraction part of `float(...)` on the digit strings
the amount and score patterns produce. -/
def natOfDigits (cs : List Char) : Nat :=
  cs.foldl (fun n c => n * 10 + (c.toNat - 48)) 0

/-- `float(s)` for the pattern-validated shapes `digits`, `digits.`,
`digits.digits`. -/
def parseFloat (s : String) : Rat :=
  let ip := s.data.takeWhile Char.isDigit
  let rest := s.data.dropWhile Char.isDigit
  match rest with
  | '.' :: fracCs =>
    let fds := fracCs.takeWhile Char.isDigit
    (natOfDigits ip : Rat) + (natOfDigits fds : Rat) / ((10 : Rat) ^ fds.length)
  | _ => (natOfDigits ip : Rat)

/-- `s.replace(',', '')`. -/
def stripCommas (s : String) : String :=
  ⟨s.data.filter (fun c => c != ',')⟩

/-- `extract_passport_number(text, form_data)`: form-data keyword hit returns
the raw value; otherwise the first matching pattern's group, upper-cased. -/
def extract_passport_number (text : String) (form_data : Val) :
    Except PyErr (Option Val) := do
  let items ← pyItems form_data
  match findPassportEntry items with
  | some v => pure (some v)
  | none =>
    pure ((firstSearch [passportPat1, passportPat2, passportPat3] text).map
      (fun g => .vStr (pyUpperStr g)))

/-- The form-data scan of `extract_full_name`: a keyword key whose value
splits into at least two words returns `value.title()`; `value.split()`
raises on a non-string value. -/
def findNameEntry : List (String × Val) → Except PyErr (Option String)
  | [] => .ok none
  | (k, v) :: rest =>
    if ["name", "applicant", "student"].any (fun w => strContainsB w (pyLowerStr k)) then
      match v with
      | .vStr s =>
        if 2 ≤ (splitWsList s).length then .ok (some (pyTitle s))
        else findNameEntry rest
      | _ => .error (.attributeError "split")
    else findNameEntry rest

/-- The pattern loop of `extract_full_name`: a match whose stripped,
title-cased group has at least two words returns it; otherwise the loop
continues with the next pattern. -/
def nameFromPatterns : List Pat → String → Option String
  | [], _ => none
  | p :: ps, text =>
    match reSearch p text with
    | some g =>
      let nm := pyTitle (pyStrip g)
      if 2 ≤ (splitWsList nm).length then some nm else nameFromPatterns ps text
    | none => nameFromPatterns ps text

/-- `extract_full_name(text, form_data)`. -/
def extract_full_name (text : String) (form_data : Val) :
    Except PyErr (Option Val) := do
  let items ← pyItems form_data
  match ← findNameEntry items with
  | some nm => pure (some (.vStr nm))
  | none =>
    pure ((nameFromPatterns [namePat "name", namePat "applicant", namePat "student"]
      text).map .vStr)

/-- `extract_date_of_birth(text, form_data)`. -/
def extract_date_of_birth (text : String) (form_data : Val) :
    Except PyErr (Option Val) := do
  let items ← pyItems form_data
  match findEntryByKeywords ["birth", "dob"] items with
  | some v => pure (some v)
  | none =>
    pure ((firstSearch [dobPat1, dobPat2, datePat] text).map .vStr)

/-- The handler's fixed country-adjective list. -/
def nationalityWords : List String :=
  ["indian", "chinese", "canadian", "american", "british", "australian", "german", "french"]

/-- `extract_nationality(text, form_data)`. -/
def extract_nationality (text : String) (form_data : Val) :
    Except PyErr (Option Val) := do
  let items ← pyItems form_data
  match findEntryByKeywords ["nationality", "country"] items with
  | some v => pure (some v)
  | none =>
    pure ((nationalityWords.find? (fun c => strContainsB c (pyLowerStr text))).map
      (fun c => .vStr (pyTitle c)))

/-- `extract_ielts_scores(text, form_data)`: one named sub-score per matching
label pattern, in label order; `None` when no label matches. -/
def extract_ielts_scores (text : String) : Option Val :=
  let scores := ([("listening", scorePat "listening"), ("reading", scorePat "reading"),
    ("writing", scorePat "writing"), ("speaking", scorePat "speaking"),
    ("overall", scorePat "overall")]).filterMap
    (fun p => (reSearch p.2 text).map (fun g => (p.1, Val.vFloat (parseFloat g))))
  if scores.isEmpty then none else some (.vDict scores)

/-- `extract_institution_name(text, form_data)`. -/
def extract_institution_name (text : String) (form_data : Val) :
    Except PyErr (Option Val) := do
  let items ← pyItems form_data
  match findEntryByKeywords ["institution", "university", "college", "school"] items with
  | some v => pure (some v)
  | none =>
    pure ((firstSearch [institutionPat1, institutionPat2] text).map
      (fun g => .vStr (pyTitle (pyStrip g))))

/-- `extract_program_name(text, form_data)`: form-data keywords only, no
pattern fallback. -/
def extract_program_name (_text : String) (form_data : Val) :
    Except PyErr (Option Val) := do
  let items ← pyItems form_data
  pure (findEntryByKeywords ["program", "course", "degree", "major"] items)

/-- `extract_gic_amount(text, form_data)`: first amount pattern to match,
with thousands separators removed and converted by `float`. -/
def extract_gic_amount (text : String) : Option Val :=
  (firstSearch [gicPat1, gicPat2] text).map
    (fun g => .vFloat (parseFloat (stripCommas g)))

/-- `extract_tuition_amount(text, form_data)`. -/
def extract_tuition_amount (text : String) : Option Val :=
  (firstSearch [tuitionPat1, tuitionPat2] text).map
    (fun g => .vFloat (parseFloat (stripCommas g)))

/-- `block.get('text', '').lower()` for one entry of `text_blocks`: raises on
a non-dict block or a non-string text value (the empty-string default lowers
to itself). -/
def getBlockText (block : Val) : Except PyErr String :=
  match block with
  | .vDict d =>
    match pyGetD d "text" (.vStr "") with
    | .vStr s => .ok (pyLowerStr s)
    | _ => .error (.attributeError "lower")
  | _ => .error (.attributeError "get")

/-- The `for block in ocr_result.get('text_blocks', [])` loop: iterating a
non-list value either yields nothing (empty string/dict) or produces an
element on which `.get` raises; non-iterable values raise `TypeError`. -/
def iterText (v : Val) : Except PyErr (List String) :=
  match v with
  | .vList l => l.mapM getBlockText
  | .vStr s => if s.data.isEmpty then .ok [] else .error (.attributeError "get")
  | .vDict d => if d.isEmpty then .ok [] else .error (.attributeError "get")
  | _ => .error (.typeError "not iterable")

/-- The `None`-for-missing convention of the `field_mappings` dict. -/
def optToVal : Option Val → Val
  | some v => v
  | none => .vNone

/-- The field names of the mapper, in the order the `field_mappings` dict
lists them. -/
def ocrFieldNames : List String :=
  ["passport_number", "full_name", "date_of_birth", "nationality", "ielts_scores",
   "institution_name", "program_name", "gic_amount", "tuition_amount"]

/-- The `field_mappings` dict construction: all nine extractors are evaluated
eagerly, in order, before any result is kept. -/
def fieldMappings (full_text : String) (form_data : Val) :
    Except PyErr (List (String × Val)) := do
  let pn ← extract_passport_number full_text form_data
  let fn ← extract_full_name full_text form_data
  let dob ← extract_date_of_birth full_text form_data
  let nat ← extract_nationality full_text form_data
  let ielts := extract_ielts_scores full_text
  let inst ← extract_institution_name full_text form_data
  let prog ← extract_program_name full_text form_data
  let gic := extract_gic_amount full_text
  let tuition := extract_tuition_amount full_text
  pure [("passport_number", optToVal pn), ("full_name", optToVal fn),
        ("date_of_birth", optToVal dob), ("nationality", optToVal nat),
        ("ielts_scores", optToVal ielts), ("institution_name", optToVal inst),
        ("program_name", optToVal prog), ("gic_amount", optToVal gic),
        ("tuition_amount", optToVal tuition)]

/-- The body of the mapper's single `try` block: build the lowercase full
text, evaluate all nine extractors, then keep the truthy results. -/
def mapOcrBody (ocr_result : PyDict) : Except PyErr (List (String × Val)) := do
  let texts ← iterText (pyGetD ocr_result "text_blocks" (.vList []))
  let full_text := pyLowerStr (joinSpace texts)
  let form_data := pyGetD ocr_result "form_data" (.vDict [])
  let fm ← fieldMappings full_text form_data
  pure (fm.filter (fun p => pyTruthy p.2))

/-- `map_ocr_to_questionnaire_fields(ocr_result)`: the one `except` clause
around the whole body logs the error and the function returns `mapped_data`
as accumulated so far — which is empty, because the loop that fills
`mapped_data` runs only after every extractor has been evaluated. -/
def map_ocr_to_questionnaire_fields (ocr_result : PyDict) : List (String × Val) :=
  match mapOcrBody ocr_result with
  | .ok m => m
  | .error _ => []

/-- An OCR result whose `form_data` holds a recognizable passport number and,
after it, a keyword key whose value is a number — on which the full-name
extractor's `value.split()` raises. -/
def c3OcrResult : PyDict :=
  [("text_blocks", .vList []),
   ("form_data", .vDict [("Passport Number", .vStr "X1234567"),
                         ("Applicant Name", .vInt 42)])]

/-! ## Theorems

The claim theorems, their helper lemmas, counterexamples and witnesses.
-/

/-! ### Basic facts about the dict embedding -/

theorem pyGet_pyUpsert_self (d : PyDict) (k : String) (v : Val) :
    pyGet (pyUpsert d k v) k = some v := by
  induction d with
  | nil => simp [pyUpsert, pyGet, List.find?]
  | cons p rest ih =>
    by_cases hk : p.1 = k
    · simp [pyUpsert, pyGet, List.find?, hk]
    · have hk' : (p.1 == k) = false := by simp [hk]
      simpa [pyUpsert, pyGet, List.find?, hk'] using ih

theorem pyGet_pyUpsert_other (d : PyDict) (k k' : String) (v : Val) (h : k' ≠ k) :
    pyGet (pyUpsert d k v) k' = pyGet d k' := by
  induction d with
  | nil =>
    have : (k == k') = false := by simpa using fun hh => h hh.symm
    simp [pyUpsert, pyGet, List.find?, this]
  | cons p rest ih =>
    by_cases hk : p.1 = k
    · have hkk' : (p.1 == k') = false := by
        simpa [hk] using fun hh => h hh.symm
      have hkk2 : (k == k') = false := by simpa using fun hh => h hh.symm
      simp [pyUpsert, pyGet, List.find?, hk, hkk2, hkk']
    · have hk1 : (p.1 == k) = false := by simp [hk]
      by_cases hk2 : p.1 = k'
      · simp only [pyUpsert, hk1, Bool.false_eq_true, if_false]
        simp [pyGet, List.find?, hk2]
      · have hk2' : (p.1 == k') = false := by simp [hk2]
        simp only [pyUpsert, hk1, Bool.false_eq_true, if_false]
        simpa [pyGet, List.find?, hk2'] using ih

theorem pyHasKey_pyUpsert (d : PyDict) (k k' : String) (v : Val) :
    pyHasKey (pyUpsert d k v) k' = (pyHasKey d k' || k' == k) := by
  induction d with
  | nil => simp [pyUpsert, pyHasKey, BEq.comm]
  | cons p rest ih =>
    by_cases hk : p.1 = k
    · subst hk
      by_cases hk2 : p.1 = k' <;>
        simp [pyUpsert, pyHasKey, hk2, BEq.comm] <;> tauto
    · have hk1 : (p.1 == k) = false := by simp [hk]
      by_cases hk2 : p.1 = k'
      · simp only [pyUpsert, hk1, Bool.false_eq_true, if_false]
        simp [pyHasKey, hk2]
      · have hk2' : (p.1 == k') = false := by simp [hk2]
        simp only [pyUpsert, hk1, Bool.false_eq_true, if_false]
        simpa [pyHasKey, hk2', Bool.or_assoc] using ih

theorem length_pyUpsert_mem (d : PyDict) (k : String) (v : Val)
    (h : pyHasKey d k = true) : (pyUpsert d k v).length = d.length := by
  induction d with
  | nil => simp [pyHasKey] at h
  | cons p rest ih =>
    by_cases hk : p.1 = k
    · simp [pyUpsert, hk]
    · have hk1 : (p.1 == k) = false := by simp [hk]
      simp only [pyHasKey, List.any_cons, hk1, Bool.false_or] at h
      simpa [pyUpsert, hk1] using ih h

theorem pyGet_pyUpdate_not_mem (d u : PyDict) (k : String)
    (h : pyHasKey u k = false) : pyGet (pyUpdate d u) k = pyGet d k := by
  induction u generalizing d with
  | nil => rfl
  | cons a u' ih =>
    simp only [pyHasKey, List.any_cons, Bool.or_eq_false_iff] at h
    have h1 : (a.1 == k) = false := h.1
    have h2 : pyHasKey u' k = false := h.2
    have h1' : k ≠ a.1 := by
      simp only [beq_eq_false_iff_ne, ne_eq] at h1
      exact fun hh => h1 hh.symm
    calc pyGet (pyUpdate (pyUpsert d a.1 a.2) u') k
        = pyGet (pyUpsert d a.1 a.2) k := ih _ h2
      _ = pyGet d k := pyGet_pyUpsert_other _ _ _ _ h1'

theorem pyGetLast_cons_not_mem (a : String × Val) (u : PyDict) (k : String)
    (h : pyHasKey u k = false) (hk : (a.1 == k) = true) :
    pyGetLast (a :: u) k = some a.2 := by
  have : u.reverse.find? (fun p => p.1 == k) = none := by
    rw [List.find?_eq_none]
    intro p hp
    have : pyHasKey u p.1 = true := by
      simp only [pyHasKey, List.any_eq_true]
      exact ⟨p, List.mem_reverse.mp hp, by simp⟩
    intro hpk
    rw [show p.1 = k from by simpa using hpk] at this
    simp [this] at h
  simp [pyGetLast, List.find?_append, this, hk]

theorem pyGetLast_cons_mem (a : String × Val) (u : PyDict) (k : String)
    (h : pyHasKey u k = true) : pyGetLast (a :: u) k = pyGetLast u k := by
  have : ∃ p, u.reverse.find? (fun p => p.1 == k) = some p := by
    rw [← Option.isSome_iff_exists]
    rw [List.find?_isSome]
    simp only [pyHasKey, List.any_eq_true] at h
    obtain ⟨p, hp, hpk⟩ := h
    exact ⟨p, List.mem_reverse.mpr hp, hpk⟩
  obtain ⟨p, hp⟩ := this
  simp [pyGetLast, List.find?_append, hp]

theorem pyGet_pyUpdate_mem (d u : PyDict) (k : String)
    (h : pyHasKey u k = true) : pyGet (pyUpdate d u) k = pyGetLast u k := by
  induction u generalizing d with
  | nil => simp [pyHasKey] at h
  | cons a u' ih =>
    by_cases h2 : pyHasKey u' k = true
    · calc pyGet (pyUpdate (pyUpsert d a.1 a.2) u') k
          = pyGetLast u' k := ih _ h2
        _ = pyGetLast (a :: u') k := (pyGetLast_cons_mem a u' k h2).symm
    · have h2' : pyHasKey u' k = false := by simpa using h2
      have h2'' : (u'.any fun p => p.1 == k) = false := h2'
      have hk : (a.1 == k) = true := by
        simp only [pyHasKey, List.any_cons, h2'', Bool.or_false] at h
        exact h
      calc pyGet (pyUpdate (pyUpsert d a.1 a.2) u') k
          = pyGet (pyUpsert d a.1 a.2) k := pyGet_pyUpdate_not_mem _ _ _ h2'
        _ = some a.2 := by
            rw [show a.1 = k from by simpa using hk] at *
            exact pyGet_pyUpsert_self _ _ _
        _ = pyGetLast (a :: u') k := (pyGetLast_cons_not_mem a u' k h2' hk).symm

theorem pyHasKey_pyUpdate (d u : PyDict) (k : String) :
    pyHasKey (pyUpdate d u) k = (pyHasKey d k || pyHasKey u k) := by
  induction u generalizing d with
  | nil => simp [pyUpdate, pyHasKey]
  | cons a u' ih =>
    show pyHasKey (pyUpdate (pyUpsert d a.1 a.2) u') k = _
    rw [ih, pyHasKey_pyUpsert]
    simp [pyHasKey, BEq.comm, Bool.or_assoc, Bool.or_comm, Bool.or_left_comm]

theorem length_pyUpdate_subset (d u : PyDict)
    (h : ∀ k, pyHasKey u k = true → pyHasKey d k = true) :
    (pyUpdate d u).length = d.length := by
  induction u generalizing d with
  | nil => rfl
  | cons a u' ih =>
    have ha : pyHasKey d a.1 = true := h a.1 (by simp [pyHasKey])
    calc (pyUpdate (pyUpsert d a.1 a.2) u').length
        = (pyUpsert d a.1 a.2).length := by
          apply ih
          intro k hk
          rw [pyHasKey_pyUpsert]
          have hcons : pyHasKey (a :: u') k = true := by
            have hk' : (u'.any fun p => p.1 == k) = true := hk
            simp only [pyHasKey, List.any_cons, hk', Bool.or_true]
          exact Bool.or_eq_true_iff.mpr (Or.inl (h k hcons))
      _ = d.length := length_pyUpsert_mem _ _ _ ha

theorem pyGet_eq_none_of_not_hasKey (u : PyDict) (k : String)
    (h : pyHasKey u k = false) : pyGet u k = none := by
  simp only [pyGet, Option.map_eq_none']
  rw [List.find?_eq_none]
  intro p hp hpk
  simp only [pyHasKey] at h
  rw [List.any_eq_false] at h
  exact absurd hpk (by simpa using h p hp)

theorem pyGetLast_eq_none_of_not_hasKey (u : PyDict) (k : String)
    (h : pyHasKey u k = false) : pyGetLast u k = none := by
  simp only [pyGetLast, Option.map_eq_none']
  rw [List.find?_eq_none]
  intro p hp hpk
  simp only [pyHasKey] at h
  rw [List.any_eq_false] at h
  exact absurd hpk (by simpa using h p (List.mem_reverse.mp hp))

theorem pyGetLast_eq_pyGet_of_nodup (u : PyDict) (k : String)
    (h : (u.map Prod.fst).Nodup) : pyGetLast u k = pyGet u k := by
  induction u with
  | nil => rfl
  | cons a u' ih =>
    simp only [List.map_cons, List.nodup_cons] at h
    by_cases hk : a.1 = k
    · have hnot : pyHasKey u' k = false := by
        rw [← hk]
        simp only [pyHasKey]
        rw [List.any_eq_false]
        intro p hp
        simp only [beq_iff_eq]
        intro hpk
        exact h.1 (hpk ▸ List.mem_map.mpr ⟨p, hp, rfl⟩)
      rw [pyGetLast_cons_not_mem a u' k hnot (by simp [hk])]
      simp [pyGet, List.find?, hk]
    · have hk1 : (a.1 == k) = false := by simp [hk]
      by_cases hm : pyHasKey u' k = true
      · rw [pyGetLast_cons_mem a u' k hm, ih h.2]
        simp [pyGet, List.find?, hk1]
      · have hm' : pyHasKey u' k = false := by simpa using hm
        have hcons : pyHasKey (a :: u') k = false := by
          have hm'' : (u'.any fun p => p.1 == k) = false := hm'
          simp only [pyHasKey, List.any_cons, hk1, hm'', Bool.or_false]
        rw [pyGetLast_eq_none_of_not_hasKey _ _ hcons,
          pyGet_eq_none_of_not_hasKey _ _ hcons]

theorem storeGet_storeSet_self (s : SessionStore) (sid : String) (d : PyDict) :
    storeGet (storeSet s sid d) sid = some d := by
  induction s with
  | nil => simp [storeSet, storeGet]
  | cons p rest ih =>
    by_cases h : p.1 = sid
    · simp [storeSet, storeGet, h]
    · have h' : (p.1 == sid) = false := by simp [h]
      simp only [storeSet, h', Bool.false_eq_true, if_false]
      simpa [storeGet, h'] using ih

/-- C8: answer submission merges the posted answers into the session's stored
map with last-write-wins per key (submitted keys take the submitted value,
unsubmitted keys keep their stored value); submitting the same answer map a
second time leaves `total_answers_stored` unchanged, and each submitted key
then stores the last submitted value.  The posted map is a JSON object, so
its keys are distinct. -/
theorem claim_C8_answer_merge_idempotent (store : SessionStore) (sid : String)
    (answers : PyDict) (hnd : (answers.map Prod.fst).Nodup) :
    (∀ k, pyHasKey answers k = true →
      pyGet ((storeGet (submit_questionnaire_answers store sid answers).2 sid).getD []) k
        = pyGet answers k) ∧
    (∀ k, pyHasKey answers k = false →
      pyGet ((storeGet (submit_questionnaire_answers store sid answers).2 sid).getD []) k
        = pyGet ((storeGet store sid).getD []) k) ∧
    (submit_questionnaire_answers
        (submit_questionnaire_answers store sid answers).2 sid answers).1.total_answers_stored
      = (submit_questionnaire_answers store sid answers).1.total_answers_stored ∧
    (∀ k, pyHasKey answers k = true →
      pyGet ((storeGet (submit_questionnaire_answers
          (submit_questionnaire_answers store sid answers).2 sid answers).2 sid).getD []) k
        = pyGet answers k) := by
  set d0 : PyDict := (storeGet store sid).getD [] with hd0
  have hs1 : (submit_questionnaire_answers store sid answers).2
      = storeSet store sid (pyUpdate d0 answers) := rfl
  have hget1 : (storeGet (submit_questionnaire_answers store sid answers).2 sid).getD []
      = pyUpdate d0 answers := by
    rw [hs1, storeGet_storeSet_self]; rfl
  have hs2 : (submit_questionnaire_answers
        (submit_questionnaire_answers store sid answers).2 sid answers).2
      = storeSet (submit_questionnaire_answers store sid answers).2 sid
          (pyUpdate (pyUpdate d0 answers) answers) := by
    show storeSet _ sid (pyUpdate ((storeGet (submit_questionnaire_answers store sid answers).2 sid).getD []) answers) = _
    rw [hget1]
  have hget2 : (storeGet (submit_questionnaire_answers
        (submit_questionnaire_answers store sid answers).2 sid answers).2 sid).getD []
      = pyUpdate (pyUpdate d0 answers) answers := by
    rw [hs2, storeGet_storeSet_self]; rfl
  refine ⟨?_, ?_, ?_, ?_⟩
  · intro k hk
    rw [hget1, pyGet_pyUpdate_mem _ _ _ hk, pyGetLast_eq_pyGet_of_nodup _ _ hnd]
  · intro k hk
    rw [hget1, pyGet_pyUpdate_not_mem _ _ _ hk]
  · show (pyUpdate ((storeGet (submit_questionnaire_answers store sid answers).2 sid).getD []) answers).length
        = (pyUpdate d0 answers).length
    rw [hget1]
    apply length_pyUpdate_subset
    intro k hk
    rw [pyHasKey_pyUpdate]
    simp [hk]
  · intro k hk
    rw [hget2, pyGet_pyUpdate_mem _ _ _ hk, pyGetLast_eq_pyGet_of_nodup _ _ hnd]

/-- Witness for C8 at a concrete store, session and answer map. -/
theorem claim_C8_answer_merge_idempotent_witness :
    (submit_questionnaire_answers
        (submit_questionnaire_answers [] "s1" c8Answers).2 "s1" c8Answers).1.total_answers_stored
      = (submit_questionnaire_answers [] "s1" c8Answers).1.total_answers_stored ∧
    pyGet ((storeGet (submit_questionnaire_answers
        (submit_questionnaire_answers [] "s1" c8Answers).2 "s1" c8Answers).2 "s1").getD [])
        "has_sds_gic" = some (.vBool true) := by
  have h := claim_C8_answer_merge_idempotent [] "s1" c8Answers (by
    simp [c8Answers])
  refine ⟨h.2.2.1, ?_⟩
  have := h.2.2.2 "has_sds_gic" (by rfl)
  rw [this]
  rfl

theorem length_metNames_of_pairs (b1 b2 b3 b4 b5 b6 b7 : Bool) :
    ((([("acceptance_letter", b1), ("financial_proof", b2), ("language_test", b3),
        ("medical_exam", b4), ("clean_criminal_record", b5), ("valid_passport", b6),
        ("provincial_attestation", b7)] : List (String × Bool)).filter (·.2)).map (·.1)).length
      = b1.toNat + b2.toNat + b3.toNat + b4.toNat + b5.toNat + b6.toNat + b7.toNat := by
  cases b1 <;> cases b2 <;> cases b3 <;> cases b4 <;> cases b5 <;> cases b6 <;> cases b7 <;> rfl

/-- C4: for every answers/OCR input, the returned score is
(number of satisfied predicates / 7) × 100 and `eligible` holds exactly when
at least 6 predicates hold; with exactly 6 of 7 satisfied the checker says
eligible, with exactly 5 of 7 it does not. -/
theorem claim_C4_score_formula_and_threshold :
    (∀ answers ocr_data : PyDict,
      (check_study_permit_eligibility answers ocr_data).score
          = ((check_study_permit_eligibility answers ocr_data).requirements_met.length : Rat)
              / 7 * 100 ∧
      ((check_study_permit_eligibility answers ocr_data).eligible = true
          ↔ 6 ≤ (check_study_permit_eligibility answers ocr_data).requirements_met.length)) ∧
    (check_study_permit_eligibility c4SixOfSeven []).requirements_met.length = 6 ∧
    (check_study_permit_eligibility c4SixOfSeven []).eligible = true ∧
    (check_study_permit_eligibility c4FiveOfSeven []).requirements_met.length = 5 ∧
    (check_study_permit_eligibility c4FiveOfSeven []).eligible = false := by
  refine ⟨?_, by decide, by decide, by decide, by decide⟩
  intro answers ocr_data
  have hlen : (check_study_permit_eligibility answers ocr_data).requirements_met.length
      = eligibilityMetCount answers ocr_data := by
    show ((((requirementPairs answers ocr_data).filter (·.2)).map (·.1))).length = _
    rw [requirementPairs]
    rw [length_metNames_of_pairs]
    rfl
  constructor
  · show ((eligibilityMetCount answers ocr_data : Nat) : Rat) / 7 * 100 = _
    rw [hlen]
  · show (decide (6 ≤ eligibilityMetCount answers ocr_data) = true) ↔ _
    rw [hlen]
    exact decide_eq_true_iff

theorem contains_clean_of_pairs (b1 b2 b3 b4 b5 b6 b7 : Bool) :
    ((([("acceptance_letter", b1), ("financial_proof", b2), ("language_test", b3),
        ("medical_exam", b4), ("clean_criminal_record", b5), ("valid_passport", b6),
        ("provincial_attestation", b7)] : List (String × Bool)).filter (·.2)).map
        (·.1)).contains "clean_criminal_record" = b5 := by
  cases b1 <;> cases b2 <;> cases b3 <;> cases b4 <;> cases b5 <;> cases b6 <;> cases b7 <;> rfl

/-- C5 counterexample: with the `criminal_background` answer present but equal
to `null` — a value that is not "explicitly false" — the code still reports
the `clean_criminal_record` requirement as met, refuting the claimed
"if and only if the answer is explicitly false". -/
theorem claim_C5_counterexample_null_answer :
    clean_criminal_record_met c5Answers = true ∧
    (check_study_permit_eligibility c5Answers []).requirements_met.contains
        "clean_criminal_record" = true ∧
    pyGet c5Answers "criminal_background" = some .vNone ∧
    (some Val.vNone ≠ some (Val.vBool false)) := by
  refine ⟨by rfl, by rfl, by rfl, by simp⟩

/-- C5 amended: the `clean_criminal_record` predicate is true iff the
`criminal_background` answer is present with a Python-falsy value (the lookup
defaults to `True` when the key is missing, so a missing answer fails the
requirement); the predicate is what the checker reports in
`requirements_met`. -/
theorem claim_C5_clean_criminal_record_falsy :
    (∀ answers : PyDict,
      clean_criminal_record_met answers = true ↔
        ∃ v, pyGet answers "criminal_background" = some v ∧ pyTruthy v = false) ∧
    (∀ answers : PyDict, pyGet answers "criminal_background" = none →
      clean_criminal_record_met answers = false) ∧
    (∀ answers ocr_data : PyDict,
      (check_study_permit_eligibility answers ocr_data).requirements_met.contains
          "clean_criminal_record" = clean_criminal_record_met answers) := by
  refine ⟨?_, ?_, ?_⟩
  · intro answers
    unfold clean_criminal_record_met pyGetD
    cases h : pyGet answers "criminal_background" with
    | none => simp [pyTruthy]
    | some v => simp
  · intro answers h
    unfold clean_criminal_record_met pyGetD
    rw [h]
    rfl
  · intro answers ocr_data
    show ((((requirementPairs answers ocr_data).filter (·.2)).map (·.1))).contains
        "clean_criminal_record" = _
    rw [requirementPairs, contains_clean_of_pairs]

/-- Witness for the amended C5 at concrete answer maps: the empty map (answer
absent) fails the requirement, the `null` answer satisfies it. -/
theorem claim_C5_clean_criminal_record_falsy_witness :
    clean_criminal_record_met [] = false ∧ clean_criminal_record_met c5Answers = true := by
  constructor
  · exact claim_C5_clean_criminal_record_falsy.2.1 [] (by rfl)
  · exact (claim_C5_clean_criminal_record_falsy.1 c5Answers).mpr ⟨.vNone, by rfl, rfl⟩

theorem pyEqStr_eq_true_iff (v : Val) (s : String) :
    pyEqStr v s = true ↔ v = .vStr s := by
  cases v <;> simp [pyEqStr]

/-- C6: for every form, `_validate_form` computes completion as filled fields
(required or optional) over all fields times 100, validity as the absence of
an empty required field, and one error message per empty required field. -/
theorem claim_C6_form_validation (form : IRCCForm) :
    (0 < ((form.sections.map (·.fields)).join).length →
      (validate_form form).completion_percentage
        = ((((form.sections.map (·.fields)).join).filter
              (fun f => isFilledValue f.value)).length : Rat)
            / (((form.sections.map (·.fields)).join).length : Rat) * 100) ∧
    ((validate_form form).is_valid = true ↔
      ∀ f ∈ (form.sections.map (·.fields)).join,
        f.is_required = true → isFilledValue f.value = true) ∧
    (validate_form form).validation_errors.length
      = (((form.sections.map (·.fields)).join).filter
          (fun f => !isFilledValue f.value && f.is_required)).length ∧
    ∀ f ∈ (form.sections.map (·.fields)).join,
      f.is_required = true → isFilledValue f.value = false →
        ("Required field \x27" ++ f.field_name ++ "\x27 is empty")
          ∈ (validate_form form).validation_errors := by
  have hval : validate_form form =
      { form with
        completion_percentage :=
          if 0 < ((form.sections.map (·.fields)).join).length then
            ((((form.sections.map (·.fields)).join).filter
                (fun f => isFilledValue f.value)).length : Rat)
              / (((form.sections.map (·.fields)).join).length : Rat) * 100
          else 0
        is_valid := ((((form.sections.map (·.fields)).join).filter
            (fun f => !isFilledValue f.value && f.is_required)).map
            (fun f => "Required field \x27" ++ f.field_name ++ "\x27 is empty")).isEmpty
        validation_errors := (((form.sections.map (·.fields)).join).filter
            (fun f => !isFilledValue f.value && f.is_required)).map
            (fun f => "Required field \x27" ++ f.field_name ++ "\x27 is empty") } := rfl
  refine ⟨?_, ?_, ?_, ?_⟩
  · intro h
    rw [hval]
    simp only [if_pos h]
  · rw [hval]
    show (List.map _ _).isEmpty = true ↔ _
    rw [List.isEmpty_iff, List.map_eq_nil_iff, List.filter_eq_nil_iff]
    constructor
    · intro h f hf hreq
      have := h f hf
      cases hfv : isFilledValue f.value
      · exact absurd (by simp [hfv, hreq]) this
      · rfl
    · intro h f hf
      cases hfv : isFilledValue f.value
      · cases hreq : f.is_required
        · simp [hreq]
        · exact absurd (h f hf hreq) (by simp [hfv])
      · simp [hfv]
  · rw [hval]
    show (List.map _ _).length = _
    rw [List.length_map]
  · intro f hf hreq hfv
    rw [hval]
    show _ ∈ List.map _ _
    exact List.mem_map.mpr ⟨f, List.mem_filter.mpr ⟨hf, by simp [hfv, hreq]⟩, rfl⟩

/-- Witness for C6 on the unit-test form: 1 of 3 fields filled gives
completion 100/3, the form is invalid, and the empty required field yields
its message. -/
theorem claim_C6_form_validation_witness :
    (validate_form c6TestForm).completion_percentage = 100 / 3 ∧
    (validate_form c6TestForm).is_valid = false ∧
    ("Required field \x27Required Empty\x27 is empty")
      ∈ (validate_form c6TestForm).validation_errors := by
  have h := claim_C6_form_validation c6TestForm
  refine ⟨?_, ?_, ?_⟩
  · rw [h.1 (by decide)]
    show ((1 : Nat) : Rat) / ((3 : Nat) : Rat) * 100 = 100 / 3
    norm_num
  · cases hv : (validate_form c6TestForm).is_valid
    · rfl
    · exfalso
      have := h.2.1.mp hv
        { field_id := "required_empty", field_name := "Required Empty",
          field_type := "text", value := some "" } (by decide) rfl
      simp [isFilledValue] at this
  · exact h.2.2.2
      { field_id := "required_empty", field_name := "Required Empty",
        field_type := "text", value := some "" } (by decide) rfl (by decide)

/-- C2 counterexample: for a Nepalese passport — a country the claim says is,
at minimum, in the visa-required list — `generate_all_forms` produces only
the two mandatory forms and no IMM5257 (`_needs_trv`'s list holds Nigeria,
not Nepal or Sri Lanka). -/
theorem claim_C2_counterexample_nepal :
    (generate_all_forms c2NplResponses).map (fun fs => fs.map Prod.fst)
      = .ok [FormType.IMM1294, FormType.IMM5645] := by
  rfl

/-- C2 amended: `generate_all_forms` always produces IMM1294 and IMM5645 and
produces IMM5257 iff the nested `basic_info.passport_country_code` is one of
the strings IND, CHN, PAK, BGD, NGA (Nigeria — not Nepal or Sri Lanka); the
six-country list with Nepal and Sri Lanka appears only in the separate Lambda
helper `needs_visitor_visa`, which upper-cases a flat
`passport_country_code`. -/
theorem claim_C2_trv_gating :
    (∀ responses forms, generate_all_forms responses = .ok forms →
      (forms.map Prod.fst).contains FormType.IMM1294 = true ∧
      (forms.map Prod.fst).contains FormType.IMM5645 = true ∧
      ((forms.map Prod.fst).contains FormType.IMM5257 = true ↔
        ∃ c ∈ ["IND", "CHN", "PAK", "BGD", "NGA"],
          pyValGetD (pyGetD responses "basic_info" (.vDict []))
            "passport_country_code" .vNone = .ok (.vStr c))) ∧
    (∀ data b, needs_visitor_visa data = .ok b →
      (b = true ↔ ∃ cc, pyUpper (pyGetD data "passport_country_code" (.vStr ""))
          = .ok cc ∧ cc ∈ ["IND", "CHN", "PAK", "BGD", "NPL", "LKA"])) := by
  constructor
  · intro responses forms h
    unfold generate_all_forms at h
    cases h1 : auto_fill_form .IMM1294 responses with
    | error e => rw [h1] at h; simp [Bind.bind, Except.bind] at h
    | ok f1 =>
      rw [h1] at h
      cases h2 : auto_fill_form .IMM5645 responses with
      | error e => rw [h2] at h; simp [Bind.bind, Except.bind] at h
      | ok f2 =>
        rw [h2] at h
        cases h3 : needs_trv responses with
        | error e => rw [h3] at h; simp [Bind.bind, Except.bind] at h
        | ok t =>
          rw [h3] at h
          simp only [Bind.bind, Except.bind] at h
          unfold needs_trv at h3
          cases h4 : pyValGetD (pyGetD responses "basic_info" (.vDict []))
              "passport_country_code" .vNone with
          | error e => rw [h4] at h3; simp [Bind.bind, Except.bind] at h3
          | ok pc =>
            rw [h4] at h3
            simp only [Bind.bind, Except.bind, pure, Except.pure, Except.ok.injEq] at h3
            cases t with
            | true =>
              rw [if_pos rfl] at h
              cases h5 : auto_fill_form .IMM5257 responses with
              | error e =>
                rw [h5] at h
                simp [Bind.bind, Except.bind] at h
              | ok f3 =>
                rw [h5] at h
                simp only [Bind.bind, Except.bind, pure, Except.pure, Except.ok.injEq] at h
                subst h
                refine ⟨rfl, rfl, ?_⟩
                constructor
                · intro _
                  have ht : (["IND", "CHN", "PAK", "BGD", "NGA"].any
                      (fun c => pyEqStr pc c)) = true := h3
                  rw [List.any_eq_true] at ht
                  obtain ⟨c, hc, hpc⟩ := ht
                  refine ⟨c, hc, ?_⟩
                  rw [(pyEqStr_eq_true_iff pc c).mp hpc]
                · intro _
                  rfl
            | false =>
              rw [if_neg (by simp)] at h
              simp only [pure, Except.pure, Except.ok.injEq] at h
              subst h
              refine ⟨rfl, rfl, ?_⟩
              constructor
              · intro hc
                have hfalse : ((([(FormType.IMM1294, f1), (FormType.IMM5645, f2)]).map
                    Prod.fst).contains FormType.IMM5257) = false := rfl
                rw [hfalse] at hc
                cases hc
              · rintro ⟨c, hc, hpc⟩
                have hpceq : pc = .vStr c := Except.ok.inj hpc
                have hany : (["IND", "CHN", "PAK", "BGD", "NGA"].any
                    (fun c2 => pyEqStr pc c2)) = false := h3
                rw [hpceq] at hany
                rw [List.any_eq_false] at hany
                exact absurd ((pyEqStr_eq_true_iff _ _).mpr rfl) (by simpa using hany c hc)
  · intro data b h
    unfold needs_visitor_visa at h
    cases h1 : pyUpper (pyGetD data "passport_country_code" (.vStr "")) with
    | error e => rw [h1] at h; simp [Bind.bind, Except.bind] at h
    | ok cc =>
      rw [h1] at h
      simp only [Bind.bind, Except.bind, pure, Except.pure, Except.ok.injEq] at h
      subst h
      constructor
      · intro hb
        exact ⟨cc, rfl, by simpa [List.contains, List.elem_iff] using hb⟩
      · rintro ⟨cc2, hcc2, hmem⟩
        have hcceq : cc = cc2 := Except.ok.inj hcc2
        rw [hcceq]
        simpa [List.contains, List.elem_iff] using hmem

/-- Witness for the amended C2: an Indian passport yields the TRV form, and
the Lambda helper accepts a lower-case flat country code. -/
theorem claim_C2_trv_gating_witness :
    (generate_all_forms c2IndResponses).map
        (fun fs => (fs.map Prod.fst).contains FormType.IMM5257) = .ok true ∧
    needs_visitor_visa [("passport_country_code", .vStr "ind")] = .ok true := by
  constructor
  · cases h : generate_all_forms c2IndResponses with
    | error e =>
      have hkeys : (generate_all_forms c2IndResponses).map (fun fs => fs.map Prod.fst)
          = .ok [FormType.IMM1294, FormType.IMM5645, FormType.IMM5257] := by rfl
      rw [h] at hkeys
      exact absurd hkeys (by simp [Except.map])
    | ok forms =>
      have h5257 := ((claim_C2_trv_gating.1 c2IndResponses forms h).2.2).mpr
        ⟨"IND", by decide, by rfl⟩
      show Except.ok ((forms.map Prod.fst).contains FormType.IMM5257) = Except.ok true
      rw [h5257]
  · cases h : needs_visitor_visa [("passport_country_code", .vStr "ind")] with
    | error e =>
      have hok : needs_visitor_visa [("passport_country_code", .vStr "ind")]
          = .ok ((["IND", "CHN", "PAK", "BGD", "NPL", "LKA"]).contains (pyUpperStr "ind")) := by
        rfl
      rw [h] at hok
      exact absurd hok (by simp)
    | ok b =>
      have hb := (claim_C2_trv_gating.2 _ _ h).mpr ⟨"IND", by rfl, by decide⟩
      rw [hb]

/-- C1 counterexample: on the spec's own answer map (with empty OCR data) the
eligibility checker does not return 100% — the map has no `accepted_to_dli`,
no `has_gic`/`tuition_paid` key (only `has_sds_gic`), and `gic_amount` is
consulted only in the OCR map — eligible is false, two requirements are
missing, and the flat map leaves the IMM1294 `funds_available` field empty
(the auto-fill reads section-nested sub-maps). -/
theorem claim_C1_counterexample_scenario :
    (check_study_permit_eligibility c1Answers []).score ≠ 100 ∧
    (check_study_permit_eligibility c1Answers []).eligible = false ∧
    (check_study_permit_eligibility c1Answers []).requirements_missing ≠ [] ∧
    (auto_fill_form .IMM1294 c1Answers).map (fun f => formFieldValue f "funds_available")
      = .ok (some none) := by
  have hscore : (check_study_permit_eligibility c1Answers []).score
      = ((5 : Nat) : Rat) / 7 * 100 := rfl
  refine ⟨?_, by rfl, by decide, by rfl⟩
  rw [hscore]
  norm_num

/-- C1 amended: on the flat scenario map the checker scores 5/7 ≈ 71.4%, not
eligible, missing `acceptance_letter` and `financial_proof`; the flat map
fills neither `funds_available` nor `country_of_birth` of IMM1294 and
`_needs_trv` is false.  With the same answers nested by section, IMM1294 gets
`funds_available = "20635.0"` and `country_of_birth = "IND"`, and the TRV
form IMM5257 is generated because the passport country is IND. -/
theorem claim_C1_scenario_actual :
    (check_study_permit_eligibility c1Answers []).score = 500 / 7 ∧
    (check_study_permit_eligibility c1Answers []).eligible = false ∧
    (check_study_permit_eligibility c1Answers []).requirements_missing
      = ["acceptance_letter", "financial_proof"] ∧
    (auto_fill_form .IMM1294 c1Answers).map (fun f => formFieldValue f "funds_available")
      = .ok (some none) ∧
    (auto_fill_form .IMM1294 c1Answers).map (fun f => formFieldValue f "country_of_birth")
      = .ok (some none) ∧
    needs_trv c1Answers = .ok false ∧
    (auto_fill_form .IMM1294 c1NestedResponses).map
        (fun f => formFieldValue f "funds_available") = .ok (some (some "20635.0")) ∧
    (auto_fill_form .IMM1294 c1NestedResponses).map
        (fun f => formFieldValue f "country_of_birth") = .ok (some (some "IND")) ∧
    (generate_all_forms c1NestedResponses).map (fun fs => fs.map Prod.fst)
      = .ok [FormType.IMM1294, FormType.IMM5645, FormType.IMM5257] := by
  have hscore : (check_study_permit_eligibility c1Answers []).score
      = ((5 : Nat) : Rat) / 7 * 100 := rfl
  refine ⟨?_, by rfl, by rfl, by rfl, by rfl, by rfl, by rfl, by rfl, by rfl⟩
  rw [hscore]
  norm_num

theorem pyHasKey_of_pyGet_some (d : PyDict) (k : String) (v : Val)
    (h : pyGet d k = some v) : pyHasKey d k = true := by
  simp only [pyGet, Option.map_eq_some'] at h
  obtain ⟨p, hp, hv⟩ := h
  have hbeq := List.find?_some hp
  have hmem := List.mem_of_find?_eq_some hp
  simp only [pyHasKey, List.any_eq_true]
  exact ⟨p, hmem, hbeq⟩

/-- C10: the Lambda form-generation path merges answers and OCR data by dict
spread with the OCR map second, so a key present in both maps takes the OCR
value in the merged map; consequently the IMM1294 `funds_available` field
(which reads `gic_amount`) carries the OCR amount, not the questionnaire
answer; and every form dict this path generates is built from that merged
map.  (A JSON object has distinct keys, hence the `Nodup` hypothesis on the
OCR map.) -/
theorem claim_C10_ocr_overrides_answers :
    (∀ answers ocr_data : PyDict, ∀ k v, (ocr_data.map Prod.fst).Nodup →
      pyGet ocr_data k = some v → pyGet (mergedData answers ocr_data) k = some v) ∧
    (∀ answers ocr_data : PyDict, ∀ va vo, (ocr_data.map Prod.fst).Nodup →
      pyGet answers "gic_amount" = some va → pyGet ocr_data "gic_amount" = some vo →
      pyGet (imm1294LambdaFields (mergedData answers ocr_data)) "funds_available"
        = some vo) ∧
    (∀ answers ocr_data fs, generate_application_forms answers ocr_data = .ok fs →
      ∀ p ∈ fs, p.2 = imm1294LambdaFields (mergedData answers ocr_data) ∨
        p.2 = imm5645LambdaFields (mergedData answers ocr_data) ∨
        p.2 = imm5257LambdaFields (mergedData answers ocr_data)) := by
  have hmerge : ∀ answers ocr_data : PyDict, ∀ k v, (ocr_data.map Prod.fst).Nodup →
      pyGet ocr_data k = some v → pyGet (mergedData answers ocr_data) k = some v := by
    intro answers ocr_data k v hnd h
    have hk : pyHasKey ocr_data k = true := pyHasKey_of_pyGet_some _ _ _ h
    rw [mergedData, pyGet_pyUpdate_mem _ _ _ hk, pyGetLast_eq_pyGet_of_nodup _ _ hnd]
    exact h
  refine ⟨hmerge, ?_, ?_⟩
  · intro answers ocr_data va vo hnd ha ho
    have h1 : pyGet (mergedData answers ocr_data) "gic_amount" = some vo :=
      hmerge answers ocr_data _ _ hnd ho
    have h2 : pyGet (imm1294LambdaFields (mergedData answers ocr_data)) "funds_available"
        = some (pyGetD (mergedData answers ocr_data) "gic_amount" (.vStr "")) := rfl
    rw [h2, pyGetD, h1]
    rfl
  · intro answers ocr_data fs h p hp
    unfold generate_application_forms at h
    simp only [] at h
    cases ht : needs_visitor_visa (mergedData answers ocr_data) with
    | error e =>
      rw [ht] at h
      simp [Bind.bind, Except.bind] at h
    | ok t =>
      rw [ht] at h
      simp only [Bind.bind, Except.bind] at h
      cases t with
      | true =>
        rw [if_pos rfl] at h
        simp only [pure, Except.pure, Except.ok.injEq] at h
        subst h
        simp only [List.mem_cons, List.not_mem_nil, or_false] at hp
        rcases hp with hp | hp | hp <;> rw [hp] <;> simp [mergedData]
      | false =>
        rw [if_neg (by simp)] at h
        simp only [pure, Except.pure, Except.ok.injEq] at h
        subst h
        simp only [List.mem_cons, List.not_mem_nil, or_false] at hp
        rcases hp with hp | hp <;> rw [hp] <;> simp [mergedData]

/-- Witness for C10: with `gic_amount` 10000 in the answers and 20635.0 in
the OCR data, the merged map and the generated IMM1294 carry the OCR value. -/
theorem claim_C10_ocr_overrides_answers_witness :
    pyGet (imm1294LambdaFields
        (mergedData [("gic_amount", .vFloat 10000)] [("gic_amount", .vFloat 20635)]))
      "funds_available" = some (.vFloat 20635) :=
  claim_C10_ocr_overrides_answers.2.1
    [("gic_amount", .vFloat 10000)] [("gic_amount", .vFloat 20635)]
    (.vFloat 10000) (.vFloat 20635) (by simp) (by rfl) (by rfl)

/-- C7: a question without a rule is always in the visible filter; a question
with a rule is visible iff the dependency answer is present and matches a
`show_if` value; an absent dependency answer hides the question (and the
filter is a total function — no error); concretely, `duration_of_stay`
(depending on `purpose_in_canada` with show-if Study/Work) is hidden under
`purpose_in_canada = "Visit"` and shown under `"Study"`, over the actual
question list of the tree's first section. -/
theorem claim_C7_conditional_visibility :
    (∀ (answers : PyDict) (qs : List Question) (q : Question), q ∈ qs →
      q.conditional_logic = none → q ∈ visibleQuestions answers qs) ∧
    (∀ (answers : PyDict) (qs : List Question) (q : Question) (rule : ConditionalRule),
      q ∈ qs → q.conditional_logic = some rule →
      (q ∈ visibleQuestions answers qs ↔
        ∃ v, pyGet answers rule.depends_on = some v ∧
          rule.show_if.any (fun s => answerMatchesShowIf v s) = true)) ∧
    (∀ (answers : PyDict) (qs : List Question) (q : Question) (rule : ConditionalRule),
      q ∈ qs → q.conditional_logic = some rule →
      pyGet answers rule.depends_on = none → q ∉ visibleQuestions answers qs) ∧
    durationOfStayQuestion ∉
      visibleQuestions [("purpose_in_canada", .vStr "Visit")]
        (sectionQuestions "getting_started") ∧
    durationOfStayQuestion ∈
      visibleQuestions [("purpose_in_canada", .vStr "Study")]
        (sectionQuestions "getting_started") := by
  refine ⟨?_, ?_, ?_, by decide, by decide⟩
  · intro answers qs q hq hrule
    exact List.mem_filter.mpr ⟨hq, by simp [questionVisible, hrule]⟩
  · intro answers qs q rule hq hrule
    constructor
    · intro hv
      have hpred := (List.mem_filter.mp hv).2
      simp only [questionVisible, hrule] at hpred
      cases hget : pyGet answers rule.depends_on with
      | none => rw [hget] at hpred; cases hpred
      | some v =>
        rw [hget] at hpred
        exact ⟨v, rfl, hpred⟩
    · rintro ⟨v, hget, hmatch⟩
      refine List.mem_filter.mpr ⟨hq, ?_⟩
      simp only [questionVisible, hrule, hget]
      exact hmatch
  · intro answers qs q rule hq hrule hget hv
    have hpred := (List.mem_filter.mp hv).2
    simp only [questionVisible, hrule, hget] at hpred
    cases hpred

/-- Witness for C7 at concrete inputs: an unconditioned question is visible
with no answers stored, and `duration_of_stay` is visible under a Work
answer. -/
theorem claim_C7_conditional_visibility_witness :
    (sectionQuestions "getting_started").head? =
      some { question_id := "purpose_in_canada"
             question_text := "What would you like to do in Canada?"
             question_type := "single_choice", required := true } ∧
    ({ question_id := "purpose_in_canada"
       question_text := "What would you like to do in Canada?"
       question_type := "single_choice", required := true } : Question)
      ∈ visibleQuestions [] (sectionQuestions "getting_started") ∧
    durationOfStayQuestion ∈
      visibleQuestions [("purpose_in_canada", .vStr "Work")]
        (sectionQuestions "getting_started") := by
  refine ⟨by decide, ?_, ?_⟩
  · exact claim_C7_conditional_visibility.1 [] _ _ (by decide) rfl
  · exact (claim_C7_conditional_visibility.2.1 [("purpose_in_canada", .vStr "Work")]
      (sectionQuestions "getting_started") durationOfStayQuestion
      { depends_on := "purpose_in_canada", show_if := ["Study", "Work"] }
      (by decide) rfl).mpr ⟨.vStr "Work", by rfl, by rfl⟩

/-- C9 counterexample: with one required question answered the spec's formula
yields 100/21, but the endpoint returns the constant 0 (and the constant
current step `basic_info`) — the handler computes nothing from the session. -/
theorem claim_C9_counterexample_constant_completion :
    (get_wizard_tree "session-a").completion_percentage = 0 ∧
    specCompletionPercentage [("purpose_in_canada", .vStr "Study")] = 100 / 21 ∧
    (100 / 21 : Rat) ≠ 0 ∧
    (get_wizard_tree "session-a").current_step = "basic_info" := by
  have hspec : specCompletionPercentage [("purpose_in_canada", .vStr "Study")]
      = ((1 : Nat) : Rat) / ((21 : Nat) : Rat) * 100 := rfl
  refine ⟨rfl, ?_, by norm_num, rfl⟩
  rw [hspec]
  norm_num

/-- C9 amended: the tree endpoint returns the full flattened static question
tree, but its navigation metadata is constant — completion percentage 0,
current step `basic_info`, 21 total steps — for every session id; only the
echoed session id varies. -/
theorem claim_C9_tree_endpoint_constant :
    ∀ session_id : String,
      (get_wizard_tree session_id).completion_percentage = 0 ∧
      (get_wizard_tree session_id).current_step = "basic_info" ∧
      (get_wizard_tree session_id).total_steps = 21 ∧
      (get_wizard_tree session_id).session_id = session_id ∧
      (get_wizard_tree session_id).sections = flattenSections build_question_tree := by
  intro session_id
  exact ⟨rfl, rfl, rfl, rfl, rfl⟩

/-- C3 counterexample: on `c3OcrResult` the passport-number strategy succeeds
with a truthy value, the full-name strategy raises, and the mapping returns
the empty map — the successful field is *not* in the result, refuting "that
one field is omitted ... and includes their successful results". -/
theorem claim_C3_counterexample_abort :
    extract_passport_number ""
        (.vDict [("Passport Number", .vStr "X1234567"), ("Applicant Name", .vInt 42)])
      = .ok (some (.vStr "X1234567")) ∧
    mapOcrBody c3OcrResult = .error (.attributeError "split") ∧
    map_ocr_to_questionnaire_fields c3OcrResult = [] := by
  refine ⟨by rfl, by rfl, by rfl⟩

theorem fieldMappings_ok_shape (ft : String) (fd : Val) (fm : List (String × Val))
    (h : fieldMappings ft fd = .ok fm) : fm.map Prod.fst = ocrFieldNames := by
  unfold fieldMappings at h
  cases h1 : extract_passport_number ft fd with
  | error e => rw [h1] at h; simp [Bind.bind, Except.bind] at h
  | ok pn =>
    rw [h1] at h
    simp only [Bind.bind, Except.bind] at h
    cases h2 : extract_full_name ft fd with
    | error e => rw [h2] at h; simp [Except.bind] at h
    | ok fn =>
      rw [h2] at h
      simp only [Except.bind] at h
      cases h3 : extract_date_of_birth ft fd with
      | error e => rw [h3] at h; simp [Except.bind] at h
      | ok dob =>
        rw [h3] at h
        simp only [Except.bind] at h
        cases h4 : extract_nationality ft fd with
        | error e => rw [h4] at h; simp [Except.bind] at h
        | ok nat =>
          rw [h4] at h
          simp only [Except.bind] at h
          cases h5 : extract_institution_name ft fd with
          | error e => rw [h5] at h; simp [Except.bind] at h
          | ok inst =>
            rw [h5] at h
            simp only [Except.bind] at h
            cases h6 : extract_program_name ft fd with
            | error e => rw [h6] at h; simp [Except.bind] at h
            | ok prog =>
              rw [h6] at h
              simp only [Except.bind, pure, Except.pure, Except.ok.injEq] at h
              subst h
              rfl

/-- C3 amended: a raising extractor aborts the whole mapping — the exception
is caught at the level of the single `try` around the body and the function
returns the empty map, dropping even the fields whose strategies had already
succeeded; no exception propagates (the function is total); and every entry
of a successful mapping is a truthy value under one of the nine known field
names, so a field whose patterns find no match (a `None`, falsy) is simply
absent. -/
theorem claim_C3_exception_empties_mapping :
    (∀ r : PyDict, ∀ e, mapOcrBody r = .error e →
      map_ocr_to_questionnaire_fields r = []) ∧
    (∀ r : PyDict, ∀ p ∈ map_ocr_to_questionnaire_fields r, pyTruthy p.2 = true) ∧
    (∀ r : PyDict, ∀ p ∈ map_ocr_to_questionnaire_fields r, p.1 ∈ ocrFieldNames) := by
  have hshape : ∀ r : PyDict, ∀ m, mapOcrBody r = .ok m →
      ∃ fm, fieldMappings
          (pyLowerStr (joinSpace ((iterText (pyGetD r "text_blocks" (.vList []))).toOption.getD [])))
          (pyGetD r "form_data" (.vDict [])) = .ok fm ∧
        m = fm.filter (fun p => pyTruthy p.2) := by
    intro r m hb
    unfold mapOcrBody at hb
    cases ht : iterText (pyGetD r "text_blocks" (.vList [])) with
    | error e => rw [ht] at hb; simp [Bind.bind, Except.bind] at hb
    | ok texts =>
      rw [ht] at hb
      simp only [Bind.bind, Except.bind] at hb
      cases hf : fieldMappings (pyLowerStr (joinSpace texts))
          (pyGetD r "form_data" (.vDict [])) with
      | error e => rw [hf] at hb; simp [Except.bind] at hb
      | ok fm =>
        rw [hf] at hb
        simp only [Except.bind, pure, Except.pure, Except.ok.injEq] at hb
        subst hb
        exact ⟨fm, by simpa [Except.toOption] using hf, rfl⟩
  refine ⟨?_, ?_, ?_⟩
  · intro r e he
    unfold map_ocr_to_questionnaire_fields
    rw [he]
  · intro r p hp
    unfold map_ocr_to_questionnaire_fields at hp
    cases hb : mapOcrBody r with
    | error e => rw [hb] at hp; cases hp
    | ok m =>
      rw [hb] at hp
      obtain ⟨fm, _, hm⟩ := hshape r m hb
      subst hm
      exact of_decide_eq_true (by
        have := (List.mem_filter.mp hp).2
        simpa using this)
  · intro r p hp
    unfold map_ocr_to_questionnaire_fields at hp
    cases hb : mapOcrBody r with
    | error e => rw [hb] at hp; cases hp
    | ok m =>
      rw [hb] at hp
      obtain ⟨fm, hfm, hm⟩ := hshape r m hb
      subst hm
      have hmem := (List.mem_filter.mp hp).1
      have hnames := fieldMappings_ok_shape _ _ _ hfm
      rw [← hnames]
      exact List.mem_map_of_mem Prod.fst hmem

/-- Witness for the amended C3: the counterexample input maps to the empty
result. -/
theorem claim_C3_exception_empties_mapping_witness :
    map_ocr_to_questionnaire_fields c3OcrResult = [] :=
  claim_C3_exception_empties_mapping.1 c3OcrResult (.attributeError "split") (by rfl)

end VisaMate
